import Mathlib

/-!
Verification of the ribbon-3d ribbon builder (`src/lib/ribbon.js`).

The JavaScript source works over IEEE floats; this development uses `ℝ`
as the idealised number model.  Vectors are triples of reals, mirroring
the `[x, y, z]` arrays of `vecks`.  The builder is embedded stage by
stage following the structure of `module.exports` in `ribbon.js`:
validation, collinear filtering, centre segments, left/right offset
segments, pairwise 2D intersections with the degenerate-geometry check,
sequential joint resolution (a fold carrying the current left/right
start points, matching the `leftStarts[i+1] := ...` forward writes),
rectangle/stub/cap assembly and finally triangle/outline emission.
-/

noncomputable section

namespace RibbonSpec

open scoped Classical

/-- A 3-component vector, mirroring the `[x, y, z]` arrays used by `vecks`. -/
structure Vec3 where
  x : ℝ
  y : ℝ
  z : ℝ
deriving Inhabited

/-- `vecks` vector addition. -/
def add (a b : Vec3) : Vec3 := ⟨a.x + b.x, a.y + b.y, a.z + b.z⟩

/-- `vecks` vector subtraction. -/
def sub (a b : Vec3) : Vec3 := ⟨a.x - b.x, a.y - b.y, a.z - b.z⟩

/-- `vecks` vector negation. -/
def neg (a : Vec3) : Vec3 := ⟨-a.x, -a.y, -a.z⟩

/-- `vecks` scalar multiplication `multiply(v, s)`. -/
def multiply (a : Vec3) (s : ℝ) : Vec3 := ⟨a.x * s, a.y * s, a.z * s⟩

/-- `vecks` cross product. -/
def cross (a b : Vec3) : Vec3 :=
  ⟨a.y * b.z - a.z * b.y, a.z * b.x - a.x * b.z, a.x * b.y - a.y * b.x⟩

/-- `vecks` Euclidean length. -/
def length (v : Vec3) : ℝ := Real.sqrt (v.x ^ 2 + v.y ^ 2 + v.z ^ 2)

/-- `vecks` normalisation `norm(v)`: the vector scaled by the reciprocal
of its length. -/
def norm (v : Vec3) : Vec3 := multiply v (1 / length v)

/-- The fixed up-vector `[0, 0, 1]` used for offset directions. -/
def zAxis : Vec3 := ⟨0, 0, 1⟩

/-- Scalar 2D cross product of the XY projections. -/
def cross2D (a b : Vec3) : ℝ := a.x * b.y - a.y * b.x

/-- The error taxonomy of the builder: caller-correctable bad arguments
versus an unresolvable parallel intersection. -/
inductive RibbonError where
  | InvalidInput : RibbonError
  | DegenerateGeometry : RibbonError
deriving DecidableEq, Inhabited

/-- The `LineSegment` class of `ribbon.js`: endpoints together with the
derived unit direction and scalar length. -/
structure LineSegment where
  from' : Vec3
  to' : Vec3
  direction : Vec3
  length : ℝ
deriving Inhabited

/-- The `LineSegment` constructor: direction and length are computed
from the endpoints. -/
def mkLineSegment (a b : Vec3) : LineSegment :=
  ⟨a, b, norm (sub b a), length (sub b a)⟩

/-- Determinant deciding whether the infinite lines through `a1, a2`
and through `b1, b2` are parallel (XY projection only). -/
def lineDet (a1 a2 b1 b2 : Vec3) : ℝ :=
  (a1.x - a2.x) * (b1.y - b2.y) - (a1.y - a2.y) * (b1.x - b2.x)

/-- Modelled from the spec: `src/lib/intersect2D.js` is not part of the
provided sources.  Per spec section 4.2 it takes two lines given by two
points each (only X/Y used), returns the intersection point of the two
infinite lines with Z forced to 0, and fails with `DegenerateGeometry`
on a zero determinant (parallel or coincident lines) instead of
returning a silently wrong point.  The standard two-point determinant
form is used. -/
def intersect2D (a1 a2 b1 b2 : Vec3) : Except RibbonError Vec3 :=
  if lineDet a1 a2 b1 b2 = 0 then .error .DegenerateGeometry
  else
    .ok ⟨((a1.x * a2.y - a1.y * a2.x) * (b1.x - b2.x) -
            (a1.x - a2.x) * (b1.x * b2.y - b1.y * b2.x)) / lineDet a1 a2 b1 b2,
         ((a1.x * a2.y - a1.y * a2.x) * (b1.y - b2.y) -
            (a1.y - a2.y) * (b1.x * b2.y - b1.y * b2.x)) / lineDet a1 a2 b1 b2,
         0⟩

/-- Collinearity of three points in the XY projection (exact form of
the filter's test). -/
def collinear2D (a b c : Vec3) : Prop := cross2D (sub b a) (sub c b) = 0

/-- Interior pass of the collinear filter: a point is dropped when it is
collinear (in XY) with its immediate original neighbours; the final
point is always kept. -/
def filterInner (prev : Vec3) : List Vec3 → List Vec3
  | [] => []
  | [b] => [b]
  | b :: c :: rest =>
    if collinear2D prev b c then filterInner b (c :: rest)
    else b :: filterInner b (c :: rest)

/-- Modelled from the spec: `src/lib/removeParallel2D.js` is not part of
the provided sources.  Per spec section 4.1 it removes interior points
that are collinear (in the XY projection) with their immediate
predecessor and successor, never removes endpoints, and exists so that
no degenerate segment reaches the offset step.  The fixed numerical
tolerance is modelled as exact collinearity. -/
def removeParallel2D : List Vec3 → List Vec3
  | [] => []
  | [a] => [a]
  | a :: rest => a :: filterInner a rest

/-- Step 1 of the builder: consecutive path points as `LineSegment`s. -/
def centerSegmentsOf (poly : List Vec3) : List LineSegment :=
  (poly.zip poly.tail).map (fun q => mkLineSegment q.1 q.2)

/-- The per-segment offset direction `norm(cross([0,0,1], direction))`. -/
def offsetDirOf (s : LineSegment) : Vec3 := norm (cross zAxis s.direction)

/-- Left offset segments: each centre segment shifted by `+width` along
its offset direction. -/
def leftSegmentsOf (width : ℝ) (segs : List LineSegment) : List LineSegment :=
  segs.map (fun s =>
    mkLineSegment (add s.from' (multiply (offsetDirOf s) width))
      (add s.to' (multiply (offsetDirOf s) width)))

/-- Right offset segments: each centre segment shifted by `-width` along
its offset direction. -/
def rightSegmentsOf (width : ℝ) (segs : List LineSegment) : List LineSegment :=
  segs.map (fun s =>
    mkLineSegment (add s.from' (multiply (offsetDirOf s) (-width)))
      (add s.to' (multiply (offsetDirOf s) (-width))))

/-- Consecutive pairs of a segment list (segment `i` with segment `i+1`). -/
def segPairs (segs : List LineSegment) : List (LineSegment × LineSegment) :=
  segs.zip segs.tail

/-- Force the Z coordinate to 0, mirroring `left3D[2] = 0`. -/
def setZ (v : Vec3) : Vec3 := ⟨v.x, v.y, 0⟩

/-- Step 2 of the builder: the loop computing, per interior joint, the
left intersection then the right intersection, failing on the first
degenerate pair. -/
def intersectionStep :
    List ((LineSegment × LineSegment) × LineSegment × LineSegment) →
      Except RibbonError (List Vec3 × List Vec3)
  | [] => .ok ([], [])
  | ((la, lb), ra, rb) :: rest =>
    match intersect2D la.from' la.to' lb.from' lb.to' with
    | .error e => .error e
    | .ok l3 =>
      match intersect2D ra.from' ra.to' rb.from' rb.to' with
      | .error e => .error e
      | .ok r3 =>
        match intersectionStep rest with
        | .error e => .error e
        | .ok (ls, rs) => .ok (setZ l3 :: ls, setZ r3 :: rs)

/-- Bundle, for interior joint `i`, the two adjacent centre segments and
the two offset intersections. -/
def zipJoints (segs : List LineSegment) (lis ris : List Vec3) :
    List (LineSegment × LineSegment × Vec3 × Vec3) :=
  ((segPairs segs).zip (lis.zip ris)).map (fun q => (q.1.1, q.1.2, q.2.1, q.2.2))

/-- Everything the loop body of step 3 derives at one interior joint:
the start points it compared against, the two candidate intersections,
the shared raw path vertex, the decision, the chosen inside
intersection and the two outward offset directions. -/
structure Joint where
  ls : Vec3
  rs : Vec3
  li : Vec3
  ri : Vec3
  pivot : Vec3
  choseLeft : Bool
  inside : Vec3
  offset1 : Vec3
  offset2 : Vec3
deriving Inhabited

/-- The decision at one interior joint (lines 106-130 of `ribbon.js`):
compare the distance from each candidate intersection to the current
(resolved) start point of its side, pick the strictly shorter side as
the inside corner. -/
def jointStep (cs ncs : LineSegment) (li ri ls rs : Vec3) : Joint :=
  if length (sub li ls) < length (sub ri rs) then
    { ls := ls, rs := rs, li := li, ri := ri, pivot := cs.to', choseLeft := true,
      inside := li,
      offset1 := neg (norm (cross zAxis cs.direction)),
      offset2 := neg (norm (cross zAxis ncs.direction)) }
  else
    { ls := ls, rs := rs, li := li, ri := ri, pivot := cs.to', choseLeft := false,
      inside := ri,
      offset2 := norm (cross zAxis cs.direction),
      offset1 := norm (cross zAxis ncs.direction) }

/-- `leftEnds[i]` as assigned by the joint loop. -/
def leftEndOf (width : ℝ) (j : Joint) : Vec3 :=
  if j.choseLeft then j.inside else add j.inside (multiply j.offset2 (width * 2))

/-- `rightEnds[i]` as assigned by the joint loop. -/
def rightEndOf (width : ℝ) (j : Joint) : Vec3 :=
  if j.choseLeft then add j.inside (multiply j.offset1 (width * 2)) else j.inside

/-- `leftStarts[i+1]` as assigned by the joint loop. -/
def nextLeftStart (width : ℝ) (j : Joint) : Vec3 :=
  if j.choseLeft then j.inside else add j.inside (multiply j.offset1 (width * 2))

/-- `rightStarts[i+1]` as assigned by the joint loop. -/
def nextRightStart (width : ℝ) (j : Joint) : Vec3 :=
  if j.choseLeft then add j.inside (multiply j.offset2 (width * 2)) else j.inside

/-- A rectangle `[leftStart, rightStart, rightEnd, leftEnd]`. -/
structure Rect where
  leftStart : Vec3
  rightStart : Vec3
  rightEnd : Vec3
  leftEnd : Vec3
deriving Inhabited

/-- A stub quad (indices 0-3 of the pushed array). -/
structure Stub where
  a : Vec3
  b : Vec3
  c : Vec3
  d : Vec3
deriving Inhabited

/-- A cap support `[cs[0], cs[1], cs[2]]`; `p1` is the pivot vertex. -/
structure Cap where
  p0 : Vec3
  p1 : Vec3
  p2 : Vec3
deriving Inhabited

/-- The sequential joint loop of step 3, threading the current
left/right start points forward (the functional reading of the
`leftStarts[i+1] := ...` array writes), producing the joint records and
the rectangles.  The last rectangle ends at the final offset segment
endpoints. -/
def resolve (width : ℝ) (lastL lastR : Vec3) :
    List (LineSegment × LineSegment × Vec3 × Vec3) → Vec3 → Vec3 →
      List Joint × List Rect
  | [], ls, rs => ([], [⟨ls, rs, lastR, lastL⟩])
  | (cs, ncs, li, ri) :: rest, ls, rs =>
    let j := jointStep cs ncs li ri ls rs
    let p := resolve width lastL lastR rest (nextLeftStart width j) (nextRightStart width j)
    (j :: p.1, ⟨ls, rs, rightEndOf width j, leftEndOf width j⟩ :: p.2)

/-- First stub quad pushed at a joint. -/
def stub1Of (width : ℝ) (j : Joint) : Stub :=
  ⟨j.inside, j.pivot, add j.pivot (multiply j.offset2 width),
    add j.inside (multiply j.offset2 (width * 2))⟩

/-- Second stub quad pushed at a joint. -/
def stub2Of (width : ℝ) (j : Joint) : Stub :=
  ⟨j.pivot, j.inside, add j.inside (multiply j.offset1 (width * 2)),
    add j.pivot (multiply j.offset1 width)⟩

/-- The two stubs per interior joint, in push order. -/
def stubsOf (width : ℝ) (js : List Joint) : List Stub :=
  js.flatMap (fun j => [stub1Of width j, stub2Of width j])

/-- The cap support pushed at a joint. -/
def capOf (width : ℝ) (j : Joint) : Cap :=
  ⟨add j.pivot (multiply j.offset2 width), j.pivot, add j.pivot (multiply j.offset1 width)⟩

/-- All intermediate geometry of one builder invocation. -/
structure RibbonData where
  width : ℝ
  polygonF : List Vec3
  centerSegments : List LineSegment
  leftSegments : List LineSegment
  rightSegments : List LineSegment
  leftIntersections : List Vec3
  rightIntersections : List Vec3
  joints : List Joint
  rectangles : List Rect
  stubs : List Stub
  capSupports : List Cap

/-- Assemble the intermediate geometry once the intersections have been
computed successfully. -/
def assembleData (polygon : List Vec3) (width : ℝ) (lints rints : List Vec3) :
    RibbonData :=
  let polygonF := removeParallel2D polygon
  let cs := centerSegmentsOf polygonF
  let lsegs := leftSegmentsOf width cs
  let rsegs := rightSegmentsOf width cs
  let p := resolve width (lsegs.getLastD default).to' (rsegs.getLastD default).to'
    (zipJoints cs lints rints) lsegs.headI.from' rsegs.headI.from'
  { width := width, polygonF := polygonF, centerSegments := cs,
    leftSegments := lsegs, rightSegments := rsegs,
    leftIntersections := lints, rightIntersections := rints,
    joints := p.1, rectangles := p.2,
    stubs := stubsOf width p.1, capSupports := p.1.map (capOf width) }

/-- The geometric part of the builder: validation (raw path length at
least 2, strictly positive width — checked before any geometry), the
collinear filter, offsets, intersections and joint resolution. -/
def ribbonData (polygon : List Vec3) (width : ℝ) : Except RibbonError RibbonData :=
  if polygon.length < 2 then .error .InvalidInput
  else if width ≤ 0 then .error .InvalidInput
  else
    let cs := centerSegmentsOf (removeParallel2D polygon)
    match intersectionStep
        ((segPairs (leftSegmentsOf width cs)).zip (segPairs (rightSegmentsOf width cs))) with
    | .error e => .error e
    | .ok lr => .ok (assembleData polygon width lr.1 lr.2)

/-- `Math.atan2` on reals: angle of the point `(x, y)` in `(-π, π]`. -/
def atan2 (y x : ℝ) : ℝ :=
  if 0 < x then Real.arctan (y / x)
  else if x < 0 then
    (if 0 ≤ y then Real.arctan (y / x) + Real.pi else Real.arctan (y / x) - Real.pi)
  else
    (if 0 < y then Real.pi / 2 else if y < 0 then -(Real.pi / 2) else 0)

/-- Radians to degrees, as written in the source (`/Math.PI*180`). -/
def degrees (a : ℝ) : ℝ := a / Real.pi * 180

/-- Normalisation of an angle in `(-180, 180]` into `[0, 360)`. -/
def norm360 (a : ℝ) : ℝ := if a < 0 then a + 360 else a

/-- The fan start angle: `atan2` of `cs[2]` about the pivot `cs[1]`,
in degrees, normalised into `[0, 360)`. -/
def capStartAngle (c : Cap) : ℝ :=
  norm360 (degrees (atan2 (c.p2.y - c.p1.y) (c.p2.x - c.p1.x)))

/-- The fan end angle before the zero remap. -/
def capEndAngle0 (c : Cap) : ℝ :=
  norm360 (degrees (atan2 (c.p0.y - c.p1.y) (c.p0.x - c.p1.x)))

/-- The fan end angle: an end angle of exactly 0 is remapped to 360. -/
def capEndAngle (c : Cap) : ℝ :=
  if capEndAngle0 c = 0 then 360 else capEndAngle0 c

/-- `numSlices = Math.floor((endAngle - startAngle)/10)`. -/
def capNumSlices (c : Cap) : ℤ := ⌊(capEndAngle c - capStartAngle c) / 10⌋

/-- `numIntermediatePoints = numSlices - 1`. -/
def capNumIntermediatePoints (c : Cap) : ℤ := capNumSlices c - 1

/-- The per-slice rotation in radians: the sweep divided evenly by the
slice count. -/
def capRotationAngle (c : Cap) : ℝ :=
  (capEndAngle c - capStartAngle c) / (capNumSlices c : ℝ) / 180 * Real.pi

/-- The radial points of a cap fan: `cs[2]`, then one rotated point per
intermediate slice (a 2D rotation of `cs[2] - cs[1]` about the pivot,
with Z set to 0), then `cs[0]`.  A non-positive intermediate count
yields no intermediate points, as the source's `for` loop does. -/
def capRadialPoints (c : Cap) : List Vec3 :=
  c.p2 ::
    ((List.range (capNumIntermediatePoints c).toNat).map (fun (i : ℕ) =>
      add ⟨(c.p2.x - c.p1.x) * Real.cos (capRotationAngle c * ((i : ℝ) + 1)) -
             (c.p2.y - c.p1.y) * Real.sin (capRotationAngle c * ((i : ℝ) + 1)),
           (c.p2.y - c.p1.y) * Real.cos (capRotationAngle c * ((i : ℝ) + 1)) +
             (c.p2.x - c.p1.x) * Real.sin (capRotationAngle c * ((i : ℝ) + 1)),
           0⟩ c.p1) ++ [c.p0])

/-- One fan triangle per adjacent pair of radial points, winding with
the sweep, pivoting at `cs[1]`. -/
def capTris (c : Cap) : List (Vec3 × Vec3 × Vec3) :=
  ((capRadialPoints c).zip (capRadialPoints c).tail).map (fun q => (q.1, q.2, c.p1))

/-- The outline points pushed while fanning: both members of every
adjacent radial pair. -/
def capOutline (c : Cap) : List Vec3 :=
  ((capRadialPoints c).zip (capRadialPoints c).tail).flatMap (fun q => [q.1, q.2])

/-- The output mesh: a triangle list and an outline point sequence. -/
structure Mesh where
  triangles : List (Vec3 × Vec3 × Vec3)
  outline : List Vec3
deriving Inhabited

/-- Two triangles per rectangle: `[r0, r1, r2]` and `[r0, r2, r3]`. -/
def rectTris (rects : List Rect) : List (Vec3 × Vec3 × Vec3) :=
  rects.flatMap (fun r =>
    [(r.leftStart, r.rightStart, r.rightEnd), (r.leftStart, r.rightEnd, r.leftEnd)])

/-- Outline points pushed per rectangle: `r[1], r[2], r[3], r[0]`. -/
def rectOutline (rects : List Rect) : List Vec3 :=
  rects.flatMap (fun r => [r.rightStart, r.rightEnd, r.leftEnd, r.leftStart])

/-- The four outline points appended for an open path: the first
rectangle's start edge and the last rectangle's end edge. -/
def openExtra (rects : List Rect) : List Vec3 :=
  [rects.headI.leftStart, rects.headI.rightStart,
    (rects.getLastD default).rightEnd, (rects.getLastD default).leftEnd]

/-- Two triangles per stub, fanned from vertex 0: `[0,1,2]`, `[0,2,3]`. -/
def stubTris (stubs : List Stub) : List (Vec3 × Vec3 × Vec3) :=
  stubs.flatMap (fun s => [(s.a, s.b, s.c), (s.a, s.c, s.d)])

/-- Outline points pushed per stub: `c[2]` and `c[3]`. -/
def stubOutline (stubs : List Stub) : List Vec3 :=
  stubs.flatMap (fun s => [s.c, s.d])

/-- Triangle and outline emission from the resolved geometry.  The
`closed` flag only decides whether the open-path outline points are
inserted. -/
def meshOf (closed : Bool) (d : RibbonData) : Mesh :=
  { triangles := rectTris d.rectangles ++ stubTris d.stubs ++
      d.capSupports.flatMap capTris,
    outline := rectOutline d.rectangles ++
      (if closed then [] else openExtra d.rectangles) ++
      stubOutline d.stubs ++ d.capSupports.flatMap capOutline }

/-- The public operation of `ribbon.js`: `module.exports(polygon,
{width, closed})`. -/
def ribbon (polygon : List Vec3) (width : ℝ) (closed : Bool) :
    Except RibbonError Mesh :=
  (ribbonData polygon width).map (meshOf closed)

/-- Concrete evaluation inputs and their expected intermediate geometry,
used by the concrete-scenario theorems below. -/
def path4 : List Vec3 := [⟨0,0,0⟩, ⟨5,0,0⟩, ⟨22/5,4/5,0⟩, ⟨2/5,19/5,0⟩]

def data4 : RibbonData :=
  { width := 1, polygonF := path4,
    centerSegments := [⟨⟨0,0,0⟩, ⟨5,0,0⟩, ⟨1,0,0⟩, 5⟩,
                       ⟨⟨5,0,0⟩, ⟨22/5,4/5,0⟩, ⟨-3/5,4/5,0⟩, 1⟩,
                       ⟨⟨22/5,4/5,0⟩, ⟨2/5,19/5,0⟩, ⟨-4/5,3/5,0⟩, 5⟩],
    leftSegments := [⟨⟨0,1,0⟩, ⟨5,1,0⟩, ⟨1,0,0⟩, 5⟩,
                     ⟨⟨21/5,-3/5,0⟩, ⟨18/5,1/5,0⟩, ⟨-3/5,4/5,0⟩, 1⟩,
                     ⟨⟨19/5,0,0⟩, ⟨-1/5,3,0⟩, ⟨-4/5,3/5,0⟩, 5⟩],
    rightSegments := [⟨⟨0,-1,0⟩, ⟨5,-1,0⟩, ⟨1,0,0⟩, 5⟩,
                      ⟨⟨29/5,3/5,0⟩, ⟨26/5,7/5,0⟩, ⟨-3/5,4/5,0⟩, 1⟩,
                      ⟨⟨5,8/5,0⟩, ⟨1,23/5,0⟩, ⟨-4/5,3/5,0⟩, 5⟩],
    leftIntersections := [⟨3,1,0⟩, ⟨129/35,3/35,0⟩],
    rightIntersections := [⟨7,-1,0⟩, ⟨179/35,53/35,0⟩],
    joints := [⟨⟨0,1,0⟩, ⟨0,-1,0⟩, ⟨3,1,0⟩, ⟨7,-1,0⟩, ⟨5,0,0⟩, true,
                ⟨3,1,0⟩, ⟨0,-1,0⟩, ⟨4/5,3/5,0⟩⟩,
               ⟨⟨3,1,0⟩, ⟨23/5,11/5,0⟩, ⟨129/35,3/35,0⟩, ⟨179/35,53/35,0⟩,
                ⟨22/5,4/5,0⟩, false, ⟨179/35,53/35,0⟩, ⟨-3/5,-4/5,0⟩, ⟨-4/5,-3/5,0⟩⟩],
    rectangles := [⟨⟨0,1,0⟩, ⟨0,-1,0⟩, ⟨3,-1,0⟩, ⟨3,1,0⟩⟩,
                   ⟨⟨3,1,0⟩, ⟨23/5,11/5,0⟩, ⟨179/35,53/35,0⟩, ⟨123/35,11/35,0⟩⟩,
                   ⟨⟨137/35,-3/35,0⟩, ⟨179/35,53/35,0⟩, ⟨1,23/5,0⟩, ⟨-1/5,3,0⟩⟩],
    stubs := [⟨⟨3,1,0⟩, ⟨5,0,0⟩, ⟨29/5,3/5,0⟩, ⟨23/5,11/5,0⟩⟩,
              ⟨⟨5,0,0⟩, ⟨3,1,0⟩, ⟨3,-1,0⟩, ⟨5,-1,0⟩⟩,
              ⟨⟨179/35,53/35,0⟩, ⟨22/5,4/5,0⟩, ⟨18/5,1/5,0⟩, ⟨123/35,11/35,0⟩⟩,
              ⟨⟨22/5,4/5,0⟩, ⟨179/35,53/35,0⟩, ⟨137/35,-3/35,0⟩, ⟨19/5,0,0⟩⟩],
    capSupports := [⟨⟨29/5,3/5,0⟩, ⟨5,0,0⟩, ⟨5,-1,0⟩⟩,
                    ⟨⟨18/5,1/5,0⟩, ⟨22/5,4/5,0⟩, ⟨19/5,0,0⟩⟩] }

def path4c : List Vec3 := [⟨0,0,0⟩, ⟨3,4,0⟩, ⟨-4,28,0⟩]

def capC4 : Cap := ⟨⟨99/25,107/25,0⟩, ⟨3,4,0⟩, ⟨19/5,17/5,0⟩⟩

def data4c : RibbonData :=
  { width := 1, polygonF := path4c,
    centerSegments := [⟨⟨0,0,0⟩, ⟨3,4,0⟩, ⟨3/5,4/5,0⟩, 5⟩,
                       ⟨⟨3,4,0⟩, ⟨-4,28,0⟩, ⟨-7/25,24/25,0⟩, 25⟩],
    leftSegments := [⟨⟨-4/5,3/5,0⟩, ⟨11/5,23/5,0⟩, ⟨3/5,4/5,0⟩, 5⟩,
                     ⟨⟨51/25,93/25,0⟩, ⟨-124/25,693/25,0⟩, ⟨-7/25,24/25,0⟩, 25⟩],
    rightSegments := [⟨⟨4/5,-3/5,0⟩, ⟨19/5,17/5,0⟩, ⟨3/5,4/5,0⟩, 5⟩,
                      ⟨⟨99/25,107/25,0⟩, ⟨-76/25,707/25,0⟩, ⟨-7/25,24/25,0⟩, 25⟩],
    leftIntersections := [⟨19/10,21/5,0⟩],
    rightIntersections := [⟨41/10,19/5,0⟩],
    joints := [⟨⟨-4/5,3/5,0⟩, ⟨4/5,-3/5,0⟩, ⟨19/10,21/5,0⟩, ⟨41/10,19/5,0⟩,
                ⟨3,4,0⟩, true, ⟨19/10,21/5,0⟩, ⟨4/5,-3/5,0⟩, ⟨24/25,7/25,0⟩⟩],
    rectangles := [⟨⟨-4/5,3/5,0⟩, ⟨4/5,-3/5,0⟩, ⟨7/2,3,0⟩, ⟨19/10,21/5,0⟩⟩,
                   ⟨⟨19/10,21/5,0⟩, ⟨191/50,119/25,0⟩, ⟨-76/25,707/25,0⟩, ⟨-124/25,693/25,0⟩⟩],
    stubs := [⟨⟨19/10,21/5,0⟩, ⟨3,4,0⟩, ⟨99/25,107/25,0⟩, ⟨191/50,119/25,0⟩⟩,
              ⟨⟨3,4,0⟩, ⟨19/10,21/5,0⟩, ⟨7/2,3,0⟩, ⟨19/5,17/5,0⟩⟩],
    capSupports := [capC4] }

def data2 : RibbonData :=
  { width := 1, polygonF := [⟨0,0,0⟩, ⟨10,0,0⟩],
    centerSegments := [⟨⟨0,0,0⟩, ⟨10,0,0⟩, ⟨1,0,0⟩, 10⟩],
    leftSegments := [⟨⟨0,1,0⟩, ⟨10,1,0⟩, ⟨1,0,0⟩, 10⟩],
    rightSegments := [⟨⟨0,-1,0⟩, ⟨10,-1,0⟩, ⟨1,0,0⟩, 10⟩],
    leftIntersections := [], rightIntersections := [],
    joints := [],
    rectangles := [⟨⟨0,1,0⟩, ⟨0,-1,0⟩, ⟨10,-1,0⟩, ⟨10,1,0⟩⟩],
    stubs := [], capSupports := [] }

def data3 : RibbonData :=
  { width := 1, polygonF := [⟨0,0,0⟩, ⟨10,0,0⟩, ⟨10,10,0⟩],
        centerSegments := [⟨⟨0,0,0⟩, ⟨10,0,0⟩, ⟨1,0,0⟩, 10⟩,
                           ⟨⟨10,0,0⟩, ⟨10,10,0⟩, ⟨0,1,0⟩, 10⟩],
        leftSegments := [⟨⟨0,1,0⟩, ⟨10,1,0⟩, ⟨1,0,0⟩, 10⟩,
                         ⟨⟨9,0,0⟩, ⟨9,10,0⟩, ⟨0,1,0⟩, 10⟩],
        rightSegments := [⟨⟨0,-1,0⟩, ⟨10,-1,0⟩, ⟨1,0,0⟩, 10⟩,
                          ⟨⟨11,0,0⟩, ⟨11,10,0⟩, ⟨0,1,0⟩, 10⟩],
        leftIntersections := [⟨9,1,0⟩], rightIntersections := [⟨11,-1,0⟩],
        joints := [⟨⟨0,1,0⟩, ⟨0,-1,0⟩, ⟨9,1,0⟩, ⟨11,-1,0⟩, ⟨10,0,0⟩, true,
                    ⟨9,1,0⟩, ⟨0,-1,0⟩, ⟨1,0,0⟩⟩],
        rectangles := [⟨⟨0,1,0⟩, ⟨0,-1,0⟩, ⟨9,-1,0⟩, ⟨9,1,0⟩⟩,
                       ⟨⟨9,1,0⟩, ⟨11,1,0⟩, ⟨11,10,0⟩, ⟨9,10,0⟩⟩],
        stubs := [⟨⟨9,1,0⟩, ⟨10,0,0⟩, ⟨11,0,0⟩, ⟨11,1,0⟩⟩,
                  ⟨⟨10,0,0⟩, ⟨9,1,0⟩, ⟨9,-1,0⟩, ⟨10,-1,0⟩⟩],
        capSupports := [⟨⟨11,0,0⟩, ⟨10,0,0⟩, ⟨10,-1,0⟩⟩] }


lemma sqrt_eval (a b : ℝ) (hb : 0 ≤ b) (h : b * b = a) : Real.sqrt a = b := by
  rw [← h, Real.sqrt_mul_self hb]

lemma sqrt100 : Real.sqrt 100 = 10 := sqrt_eval 100 10 (by norm_num) (by norm_num)

lemma segsPath2 :
    centerSegmentsOf [⟨0,0,0⟩, ⟨10,0,0⟩] =
      [⟨⟨0,0,0⟩, ⟨10,0,0⟩, ⟨1,0,0⟩, 10⟩] := by
  norm_num [centerSegmentsOf, mkLineSegment, norm, sub, length, multiply, sqrt100]

lemma ribbonDataPath2 :
    ribbonData [⟨0,0,0⟩, ⟨10,0,0⟩] 1 =
      .ok (assembleData [⟨0,0,0⟩, ⟨10,0,0⟩] 1 [] []) := by
  norm_num [ribbonData, removeParallel2D, filterInner, centerSegmentsOf,
    leftSegmentsOf, rightSegmentsOf, segPairs, intersectionStep]


lemma dataPath2 :
    assembleData [⟨0,0,0⟩, ⟨10,0,0⟩] 1 [] [] =
      { width := 1, polygonF := [⟨0,0,0⟩, ⟨10,0,0⟩],
        centerSegments := [⟨⟨0,0,0⟩, ⟨10,0,0⟩, ⟨1,0,0⟩, 10⟩],
        leftSegments := [⟨⟨0,1,0⟩, ⟨10,1,0⟩, ⟨1,0,0⟩, 10⟩],
        rightSegments := [⟨⟨0,-1,0⟩, ⟨10,-1,0⟩, ⟨1,0,0⟩, 10⟩],
        leftIntersections := [], rightIntersections := [],
        joints := [],
        rectangles := [⟨⟨0,1,0⟩, ⟨0,-1,0⟩, ⟨10,-1,0⟩, ⟨10,1,0⟩⟩],
        stubs := [], capSupports := [] } := by
  norm_num [assembleData, removeParallel2D, filterInner, centerSegmentsOf,
    leftSegmentsOf, rightSegmentsOf, mkLineSegment, offsetDirOf, zAxis,
    norm, sub, add, cross, multiply, length, sqrt100, zipJoints, resolve,
    stubsOf]


lemma sqrt81 : Real.sqrt 81 = 9 := sqrt_eval 81 9 (by norm_num) (by norm_num)

lemma sqrt121 : Real.sqrt 121 = 11 := sqrt_eval 121 11 (by norm_num) (by norm_num)


lemma ribbonDataPath3 :
    ribbonData [⟨0,0,0⟩, ⟨10,0,0⟩, ⟨10,10,0⟩] 1 = .ok data3 := by
  norm_num [data3]
  norm_num [ribbonData, assembleData, removeParallel2D, filterInner, collinear2D,
    cross2D, centerSegmentsOf, leftSegmentsOf, rightSegmentsOf, mkLineSegment,
    offsetDirOf, zAxis, norm, sub, add, cross, multiply, length, neg,
    sqrt100, sqrt81, sqrt121, segPairs, intersectionStep, intersect2D, lineDet,
    setZ, zipJoints, resolve, jointStep, stubsOf, stub1Of, stub2Of, capOf,
    leftEndOf, rightEndOf, nextLeftStart, nextRightStart]


lemma sqrt25 : Real.sqrt 25 = 5 := sqrt_eval 25 5 (by norm_num) (by norm_num)

lemma sqrt9 : Real.sqrt 9 = 3 := sqrt_eval 9 3 (by norm_num) (by norm_num)

lemma sqrt49 : Real.sqrt 49 = 7 := sqrt_eval 49 7 (by norm_num) (by norm_num)

lemma sqrt64 : Real.sqrt 64 = 8 := sqrt_eval 64 8 (by norm_num) (by norm_num)

lemma sqrt36 : Real.sqrt 36 = 6 := sqrt_eval 36 6 (by norm_num) (by norm_num)



lemma ribbonDataPath4 : ribbonData path4 1 = .ok data4 := by
  norm_num [path4, data4]
  norm_num [ribbonData, assembleData, removeParallel2D, filterInner, collinear2D,
    cross2D, centerSegmentsOf, leftSegmentsOf, rightSegmentsOf, mkLineSegment,
    offsetDirOf, zAxis, norm, sub, add, cross, multiply, length, neg,
    sqrt25, sqrt9, sqrt49, sqrt64, sqrt36,
    segPairs, intersectionStep, intersect2D, lineDet,
    setZ, zipJoints, resolve, jointStep, stubsOf, stub1Of, stub2Of, capOf,
    leftEndOf, rightEndOf, nextLeftStart, nextRightStart]


lemma sqrt625 : Real.sqrt 625 = 25 := sqrt_eval 625 25 (by norm_num) (by norm_num)

lemma sqrt4 : Real.sqrt 4 = 2 := sqrt_eval 4 2 (by norm_num) (by norm_num)




lemma ribbonDataPath4c : ribbonData path4c 1 = .ok data4c := by
  norm_num [path4c, data4c, capC4]
  norm_num [ribbonData, assembleData, removeParallel2D, filterInner, collinear2D,
    cross2D, centerSegmentsOf, leftSegmentsOf, rightSegmentsOf, mkLineSegment,
    offsetDirOf, zAxis, norm, sub, add, cross, multiply, length, neg,
    sqrt25, sqrt81, sqrt121, sqrt625, sqrt4,
    segPairs, intersectionStep, intersect2D, lineDet,
    setZ, zipJoints, resolve, jointStep, stubsOf, stub1Of, stub2Of, capOf,
    leftEndOf, rightEndOf, nextLeftStart, nextRightStart]

lemma arctan_pos' (x : ℝ) (h : 0 < x) : 0 < Real.arctan x := by
  have h2 := Real.arctan_strictMono h
  rwa [Real.arctan_zero] at h2

lemma degrees_lt_90 (a : ℝ) (h : a < Real.pi / 2) : degrees a < 90 := by
  have hpi := Real.pi_pos
  rw [degrees, div_mul_eq_mul_div, div_lt_iff₀ hpi]
  nlinarith

lemma degrees_pos (a : ℝ) (h : 0 < a) : 0 < degrees a := by
  have hpi := Real.pi_pos
  rw [degrees, div_mul_eq_mul_div, lt_div_iff₀ hpi]
  nlinarith

lemma degrees_neg' (a : ℝ) (h : a < 0) : degrees a < 0 := by
  have hpi := Real.pi_pos
  rw [degrees, div_mul_eq_mul_div, div_lt_iff₀ hpi]
  nlinarith

lemma capC4_start : capStartAngle capC4 = degrees (-Real.arctan (3/4)) + 360 := by
  have h34 : (0:ℝ) < Real.arctan (3/4) := arctan_pos' _ (by norm_num)
  have hneg : degrees (-Real.arctan (3/4)) < 0 := degrees_neg' _ (by linarith)
  have hcond : (0:ℝ) < 19/5 - 3 := by norm_num
  rw [capStartAngle, capC4]
  simp only [atan2]
  rw [if_pos hcond, show (17/5 - 4 : ℝ) / (19/5 - 3) = -(3/4) by norm_num,
    Real.arctan_neg, norm360, if_pos hneg]

lemma capC4_end : capEndAngle capC4 = degrees (Real.arctan (7/24)) := by
  have h : (0:ℝ) < Real.arctan (7/24) := arctan_pos' _ (by norm_num)
  have hd : 0 < degrees (Real.arctan (7/24)) := degrees_pos _ h
  have hcond : (0:ℝ) < 99/25 - 3 := by norm_num
  have h0 : capEndAngle0 capC4 = degrees (Real.arctan (7/24)) := by
    rw [capEndAngle0, capC4]
    simp only [atan2]
    rw [if_pos hcond, show (107/25 - 4 : ℝ) / (99/25 - 3) = 7/24 by norm_num,
      norm360, if_neg (by linarith)]
  rw [capEndAngle, h0, if_neg (by linarith)]

lemma capC4_slices_neg : capNumSlices capC4 < 0 := by
  have h1 : degrees (Real.arctan (7/24)) < 90 :=
    degrees_lt_90 _ (Real.arctan_lt_pi_div_two _)
  have h2 : -90 < degrees (-Real.arctan (3/4)) := by
    have hb := Real.arctan_lt_pi_div_two (3/4 : ℝ)
    have hpi := Real.pi_pos
    rw [degrees, div_mul_eq_mul_div, lt_div_iff₀ hpi]
    nlinarith
  have hsweep : capEndAngle capC4 - capStartAngle capC4 < 0 := by
    rw [capC4_start, capC4_end]; linarith
  rw [capNumSlices]
  rw [Int.floor_lt]
  push_cast
  linarith

lemma capC4_radial : capRadialPoints capC4 = [capC4.p2, capC4.p0] := by
  have h : (capNumIntermediatePoints capC4).toNat = 0 := by
    rw [Int.toNat_of_nonpos]
    have := capC4_slices_neg
    rw [capNumIntermediatePoints]
    omega
  rw [capRadialPoints, h]
  simp


lemma resolve_joints_length (w : ℝ) (lastL lastR : Vec3) :
    ∀ (ins : List (LineSegment × LineSegment × Vec3 × Vec3)) (ls rs : Vec3),
      (resolve w lastL lastR ins ls rs).1.length = ins.length
  | [], _, _ => by simp [resolve]
  | (cs, ncs, li, ri) :: rest, ls, rs => by
    simp [resolve, resolve_joints_length w lastL lastR rest]

lemma resolve_rects_length (w : ℝ) (lastL lastR : Vec3) :
    ∀ (ins : List (LineSegment × LineSegment × Vec3 × Vec3)) (ls rs : Vec3),
      (resolve w lastL lastR ins ls rs).2.length = ins.length + 1
  | [], _, _ => by simp [resolve]
  | (cs, ncs, li, ri) :: rest, ls, rs => by
    simp [resolve, resolve_rects_length w lastL lastR rest]

lemma resolve_rects_start (w : ℝ) (lastL lastR : Vec3) :
    ∀ (ins : List (LineSegment × LineSegment × Vec3 × Vec3)) (ls rs : Vec3) (r : Rect),
      (resolve w lastL lastR ins ls rs).2.get? 0 = some r →
        r.leftStart = ls ∧ r.rightStart = rs
  | [], ls, rs, r => by
    simp only [resolve, List.get?_cons_zero, Option.some.injEq]
    rintro rfl; exact ⟨rfl, rfl⟩
  | (cs, ncs, li, ri) :: rest, ls, rs, r => by
    simp only [resolve, List.get?_cons_zero, Option.some.injEq]
    rintro rfl; exact ⟨rfl, rfl⟩

lemma jointStep_fields (cs ncs : LineSegment) (li ri ls rs : Vec3) :
    (jointStep cs ncs li ri ls rs).ls = ls ∧ (jointStep cs ncs li ri ls rs).rs = rs ∧
    (jointStep cs ncs li ri ls rs).li = li ∧ (jointStep cs ncs li ri ls rs).ri = ri := by
  rw [jointStep]; split <;> exact ⟨rfl, rfl, rfl, rfl⟩

lemma jointStep_decision (cs ncs : LineSegment) (li ri ls rs : Vec3) :
    (length (sub li ls) < length (sub ri rs) →
      (jointStep cs ncs li ri ls rs).choseLeft = true ∧
      (jointStep cs ncs li ri ls rs).inside = li) ∧
    (¬ length (sub li ls) < length (sub ri rs) →
      (jointStep cs ncs li ri ls rs).choseLeft = false ∧
      (jointStep cs ncs li ri ls rs).inside = ri) := by
  rw [jointStep]; split <;> rename_i h
  · exact ⟨fun _ => ⟨rfl, rfl⟩, fun h2 => absurd h h2⟩
  · exact ⟨fun h2 => absurd h2 h, fun _ => ⟨rfl, rfl⟩⟩

lemma resolve_spec (w : ℝ) (lastL lastR : Vec3) :
    ∀ (ins : List (LineSegment × LineSegment × Vec3 × Vec3)) (ls rs : Vec3)
      (i : ℕ) (j : Joint) (r r' : Rect),
      (resolve w lastL lastR ins ls rs).1.get? i = some j →
      (resolve w lastL lastR ins ls rs).2.get? i = some r →
      (resolve w lastL lastR ins ls rs).2.get? (i + 1) = some r' →
      j.ls = r.leftStart ∧ j.rs = r.rightStart ∧
      r.rightEnd = rightEndOf w j ∧ r.leftEnd = leftEndOf w j ∧
      r'.leftStart = nextLeftStart w j ∧ r'.rightStart = nextRightStart w j
  | [], ls, rs, i, j, r, r' => by simp [resolve]
  | (cs, ncs, li, ri) :: rest, ls, rs, 0, j, r, r' => by
    simp only [resolve, List.get?_cons_zero, List.get?_cons_succ, Option.some.injEq]
    intro hj hr hr'
    subst hj
    obtain ⟨h1, h2⟩ := resolve_rects_start w lastL lastR rest _ _ r' hr'
    obtain ⟨f1, f2, f3, f4⟩ := jointStep_fields cs ncs li ri ls rs
    subst hr
    exact ⟨f1, f2, rfl, rfl, h1, h2⟩
  | (cs, ncs, li, ri) :: rest, ls, rs, (i + 1), j, r, r' => by
    simp only [resolve, List.get?_cons_succ]
    exact resolve_spec w lastL lastR rest _ _ i j r r'


lemma intersect2D_error {a1 a2 b1 b2 : Vec3} {e : RibbonError}
    (h : intersect2D a1 a2 b1 b2 = .error e) : e = .DegenerateGeometry := by
  rw [intersect2D] at h
  split at h
  · injection h with h2; exact h2.symm
  · exact absurd h (by simp)

lemma intersect2D_error_of_det {a1 a2 b1 b2 : Vec3} (h : lineDet a1 a2 b1 b2 = 0) :
    intersect2D a1 a2 b1 b2 = .error .DegenerateGeometry := by
  rw [intersect2D, if_pos h]

lemma intersectionStep_error_eq (l : List ((LineSegment × LineSegment) × LineSegment × LineSegment)) :
    ∀ e, intersectionStep l = .error e → e = .DegenerateGeometry := by
  induction l with
  | nil => intro e h; simp [intersectionStep] at h
  | cons q rest ih =>
    obtain ⟨⟨la, lb⟩, ra, rb⟩ := q
    intro e h
    rw [intersectionStep] at h
    cases hA : intersect2D la.from' la.to' lb.from' lb.to' with
    | error eA => rw [hA] at h; simp at h; exact h ▸ intersect2D_error hA
    | ok l3 =>
      rw [hA] at h
      cases hB : intersect2D ra.from' ra.to' rb.from' rb.to' with
      | error eB => rw [hB] at h; simp at h; exact h ▸ intersect2D_error hB
      | ok r3 =>
        rw [hB] at h
        cases hC : intersectionStep rest with
        | error eC => rw [hC] at h; simp at h; exact h ▸ ih eC hC
        | ok lr => rw [hC] at h; simp at h

lemma intersectionStep_ok_length (l : List ((LineSegment × LineSegment) × LineSegment × LineSegment)) :
    ∀ lr, intersectionStep l = .ok lr → lr.1.length = l.length ∧ lr.2.length = l.length := by
  induction l with
  | nil =>
    intro lr h
    simp only [intersectionStep, Except.ok.injEq] at h
    simp [← h]
  | cons q rest ih =>
    obtain ⟨⟨la, lb⟩, ra, rb⟩ := q
    intro lr h
    rw [intersectionStep] at h
    cases hA : intersect2D la.from' la.to' lb.from' lb.to' with
    | error eA => rw [hA] at h; simp at h
    | ok l3 =>
      rw [hA] at h
      cases hB : intersect2D ra.from' ra.to' rb.from' rb.to' with
      | error eB => rw [hB] at h; simp at h
      | ok r3 =>
        rw [hB] at h
        cases hC : intersectionStep rest with
        | error eC => rw [hC] at h; simp at h
        | ok lr' =>
          rw [hC] at h
          simp only [Except.ok.injEq] at h
          obtain ⟨h1, h2⟩ := ih lr' hC
          subst h
          simp [h1, h2]

lemma intersectionStep_error_of_zero
    (l : List ((LineSegment × LineSegment) × LineSegment × LineSegment))
    (h : ∃ q ∈ l, lineDet q.1.1.from' q.1.1.to' q.1.2.from' q.1.2.to' = 0 ∨
      lineDet q.2.1.from' q.2.1.to' q.2.2.from' q.2.2.to' = 0) :
    intersectionStep l = .error .DegenerateGeometry := by
  induction l with
  | nil => simp at h
  | cons q rest ih =>
    obtain ⟨⟨la, lb⟩, ra, rb⟩ := q
    rw [intersectionStep]
    rcases h with ⟨p, hp, hdet⟩
    rcases List.mem_cons.mp hp with rfl | hmem
    · rcases hdet with h0 | h0
      · rw [intersect2D_error_of_det h0]
      · cases hA : intersect2D la.from' la.to' lb.from' lb.to' with
        | error eA =>
          have he := intersect2D_error hA
          subst he; rfl
        | ok l3 => rw [intersect2D_error_of_det h0]
    · cases hA : intersect2D la.from' la.to' lb.from' lb.to' with
      | error eA =>
        have he := intersect2D_error hA
        subst he; rfl
      | ok l3 =>
        cases hB : intersect2D ra.from' ra.to' rb.from' rb.to' with
        | error eB =>
          have he := intersect2D_error hB
          subst he; rfl
        | ok r3 => rw [ih ⟨p, hmem, hdet⟩]


lemma ribbonData_ok {p : List Vec3} {w : ℝ} {d : RibbonData} (h : ribbonData p w = .ok d) :
    2 ≤ p.length ∧ 0 < w ∧
    ∃ lr : List Vec3 × List Vec3,
      intersectionStep ((segPairs (leftSegmentsOf w (centerSegmentsOf (removeParallel2D p)))).zip
          (segPairs (rightSegmentsOf w (centerSegmentsOf (removeParallel2D p))))) = .ok lr ∧
      d = assembleData p w lr.1 lr.2 := by
  simp only [ribbonData] at h
  split_ifs at h with h1 h2
  · refine ⟨by omega, lt_of_not_le h2, ?_⟩
    cases hC : intersectionStep
        ((segPairs (leftSegmentsOf w (centerSegmentsOf (removeParallel2D p)))).zip
          (segPairs (rightSegmentsOf w (centerSegmentsOf (removeParallel2D p))))) with
    | error e => rw [hC] at h; simp at h
    | ok lr =>
      rw [hC] at h
      simp only [Except.ok.injEq] at h
      exact ⟨lr, rfl, h.symm⟩

lemma resolve_joints_inv (w : ℝ) (lastL lastR : Vec3) :
    ∀ (ins : List (LineSegment × LineSegment × Vec3 × Vec3)) (ls rs : Vec3),
      ∀ j ∈ (resolve w lastL lastR ins ls rs).1,
      (length (sub j.li j.ls) < length (sub j.ri j.rs) →
        j.choseLeft = true ∧ j.inside = j.li) ∧
      (¬ length (sub j.li j.ls) < length (sub j.ri j.rs) →
        j.choseLeft = false ∧ j.inside = j.ri)
  | [], ls, rs, j => by simp [resolve]
  | (cs, ncs, li, ri) :: rest, ls, rs, j => by
    simp only [resolve, List.mem_cons]
    rintro (rfl | hmem)
    · obtain ⟨f1, f2, f3, f4⟩ := jointStep_fields cs ncs li ri ls rs
      rw [f1, f2, f3, f4]
      exact jointStep_decision cs ncs li ri ls rs
    · exact resolve_joints_inv w lastL lastR rest _ _ j hmem

/-- Claim C1 (amended): at every interior joint the builder decides the
inside side by comparing the distance from the left offset intersection
to the RESOLVED left start point of segment `i` (`leftStarts[i]`, which
equals `leftSegment[i].from` only at the first joint) against the
distance from the right offset intersection to the resolved right start
point, and the side with the strictly shorter distance becomes the
inside corner whose intersection point is used as the shared miter
vertex of the two adjacent rectangles. -/
theorem c1_amended (polygon : List Vec3) (width : ℝ) (d : RibbonData) (i : ℕ)
    (j : Joint) (r r' : Rect)
    (hd : ribbonData polygon width = .ok d)
    (hj : d.joints.get? i = some j)
    (hr : d.rectangles.get? i = some r)
    (hr' : d.rectangles.get? (i + 1) = some r') :
    (j.ls = r.leftStart ∧ j.rs = r.rightStart) ∧
    (length (sub j.li j.ls) < length (sub j.ri j.rs) →
      j.inside = j.li ∧ r.leftEnd = j.li ∧ r'.leftStart = j.li) ∧
    (¬ length (sub j.li j.ls) < length (sub j.ri j.rs) →
      j.inside = j.ri ∧ r.rightEnd = j.ri ∧ r'.rightStart = j.ri) := by
  obtain ⟨-, -, lr, hstep, rfl⟩ := ribbonData_ok hd
  simp only [assembleData] at hj hr hr'
  have hmem : j ∈ _ := List.get?_mem hj
  have hinv := resolve_joints_inv width _ _ _ _ _ j hmem
  obtain ⟨hls, hrs, hre, hle, hr's, hr'rs⟩ :=
    resolve_spec width _ _ _ _ _ i j r r' hj hr hr'
  refine ⟨⟨hls, hrs⟩, ?_, ?_⟩
  · intro hlt
    obtain ⟨hc, hi⟩ := hinv.1 hlt
    refine ⟨hi, ?_, ?_⟩
    · rw [hle, leftEndOf, if_pos hc, hi]
    · rw [hr's, nextLeftStart, if_pos hc, hi]
  · intro hlt
    obtain ⟨hc, hi⟩ := hinv.2 hlt
    refine ⟨hi, ?_, ?_⟩
    · rw [hre, rightEndOf, if_neg (by simp [hc]), hi]
    · rw [hr'rs, nextRightStart, if_neg (by simp [hc]), hi]


/-- Claim C1 counterexample: on the path `[(0,0,0),(5,0,0),(22/5,4/5,0),(2/5,19/5,0)]`
with width 1, at the second interior joint the distance from the left
intersection to `leftSegment[1].from` (6/7) is strictly shorter than the
distance from the right intersection to `rightSegment[1].from` (8/7), yet
the builder chooses the RIGHT intersection as the inside miter vertex
shared by the adjacent rectangles, and the left intersection is not a
shared vertex.  The code compares against the resolved start points
`leftStarts[1]`/`rightStarts[1]` (mutated by the first joint), not
against the offset segments' `from` points, so the claim as stated is
false. -/
theorem c1_counterexample :
    ribbonData path4 1 = .ok data4 ∧
    data4.joints.get? 1 = some ⟨⟨3,1,0⟩, ⟨23/5,11/5,0⟩, ⟨129/35,3/35,0⟩, ⟨179/35,53/35,0⟩,
      ⟨22/5,4/5,0⟩, false, ⟨179/35,53/35,0⟩, ⟨-3/5,-4/5,0⟩, ⟨-4/5,-3/5,0⟩⟩ ∧
    (data4.leftSegments.get? 1).map LineSegment.from' = some ⟨21/5,-3/5,0⟩ ∧
    (data4.rightSegments.get? 1).map LineSegment.from' = some ⟨29/5,3/5,0⟩ ∧
    length (sub ⟨129/35,3/35,0⟩ ⟨21/5,-3/5,0⟩) < length (sub ⟨179/35,53/35,0⟩ ⟨29/5,3/5,0⟩) ∧
    (⟨129/35,3/35,0⟩ : Vec3) ≠ ⟨179/35,53/35,0⟩ ∧
    (data4.rectangles.get? 1).map Rect.rightEnd = some ⟨179/35,53/35,0⟩ ∧
    (data4.rectangles.get? 2).map Rect.rightStart = some ⟨179/35,53/35,0⟩ ∧
    (data4.rectangles.get? 1).map Rect.leftEnd ≠ some ⟨129/35,3/35,0⟩ ∧
    (data4.rectangles.get? 2).map Rect.leftStart ≠ some ⟨129/35,3/35,0⟩ := by
  refine ⟨ribbonDataPath4, by simp [data4], by simp [data4], by simp [data4], ?_, ?_,
    by simp [data4], by simp [data4], by norm_num [data4], by norm_num [data4]⟩
  · norm_num [length, sub, sqrt36, sqrt49, sqrt64]
  · norm_num [Vec3.mk.injEq]



lemma ribbonDataP2 : ribbonData [⟨0,0,0⟩, ⟨10,0,0⟩] 1 = .ok data2 := by
  rw [ribbonDataPath2, dataPath2]; rfl

/-- Claim C2: for the input path `[(0,0,0),(10,0,0)]` with width 1 and
`closed = false`, the builder returns exactly one rectangle with
vertices `(0,1,0),(0,-1,0),(10,-1,0),(10,1,0)`, exactly 2 triangles, an
outline of exactly 8 points, and no stubs or cap fans. -/
theorem c2_straight_segment :
    ribbonData [⟨0,0,0⟩, ⟨10,0,0⟩] 1 = .ok data2 ∧
    data2.rectangles = [⟨⟨0,1,0⟩, ⟨0,-1,0⟩, ⟨10,-1,0⟩, ⟨10,1,0⟩⟩] ∧
    data2.stubs = [] ∧ data2.capSupports = [] ∧
    ribbon [⟨0,0,0⟩, ⟨10,0,0⟩] 1 false = .ok (meshOf false data2) ∧
    (meshOf false data2).triangles.length = 2 ∧
    (meshOf false data2).outline.length = 8 := by
  refine ⟨ribbonDataP2, rfl, rfl, rfl, ?_, ?_, ?_⟩
  · rw [ribbon, ribbonDataP2]; rfl
  · simp [meshOf, data2, rectTris, stubTris]
  · simp [meshOf, data2, rectOutline, stubOutline, openExtra]

/-- Claim C3: for the L-shaped path `[(0,0,0),(10,0,0),(10,10,0)]` with
width 1 the builder produces exactly 2 rectangles, 2 stub quads and 1
cap fan at the single interior joint, and the two rectangles share the
inside-corner miter vertex `(9,1,0)` exactly: the first rectangle's
resolved left end point equals the second rectangle's left start
point, both equal to the joint's inside intersection. -/
theorem c3_l_path :
    ribbonData [⟨0,0,0⟩, ⟨10,0,0⟩, ⟨10,10,0⟩] 1 = .ok data3 ∧
    data3.rectangles.length = 2 ∧ data3.stubs.length = 2 ∧
    data3.capSupports.length = 1 ∧ data3.joints.length = 1 ∧
    data3.rectangles = [⟨⟨0,1,0⟩, ⟨0,-1,0⟩, ⟨9,-1,0⟩, ⟨9,1,0⟩⟩,
                        ⟨⟨9,1,0⟩, ⟨11,1,0⟩, ⟨11,10,0⟩, ⟨9,10,0⟩⟩] ∧
    data3.rectangles.headI.leftEnd = (data3.rectangles.getLastD default).leftStart ∧
    (∀ j ∈ data3.joints, j.inside = ⟨9,1,0⟩ ∧ j.choseLeft = true ∧
      j.pivot = ⟨10,0,0⟩ ∧ data3.rectangles.headI.leftEnd = j.inside) := by
  refine ⟨ribbonDataPath3, rfl, rfl, rfl, rfl, rfl, by simp [data3], ?_⟩
  intro j hj
  simp only [data3, List.mem_singleton] at hj
  subst hj
  exact ⟨rfl, rfl, rfl, by simp [data3]⟩

/-- Claim C7: for every input path of fewer than 2 points, and for every
width equal to 0 or negative, the builder fails with `InvalidInput`
before any geometry computation, producing no partial output. -/
theorem c7_invalid_input (polygon : List Vec3) (width : ℝ) (closed : Bool)
    (h : polygon.length < 2 ∨ width ≤ 0) :
    ribbon polygon width closed = .error .InvalidInput := by
  rw [ribbon, ribbonData]
  rcases h with h | h
  · rw [if_pos h]; rfl
  · split_ifs with h1
    · rfl
    · rfl

/-- Witness for claim C7: a one-point path and a zero width are rejected. -/
theorem c7_invalid_input_witness :
    ribbon [⟨0,0,0⟩] 1 false = .error .InvalidInput ∧
    ribbon [⟨0,0,0⟩, ⟨10,0,0⟩] 0 false = .error .InvalidInput :=
  ⟨c7_invalid_input [⟨0,0,0⟩] 1 false (Or.inl (by norm_num)),
   c7_invalid_input [⟨0,0,0⟩, ⟨10,0,0⟩] 0 false (Or.inr le_rfl)⟩

/-- Claim C5: the `closed` flag changes only the outline.  For every
valid input the triangle list is identical for `closed = true` and
`closed = false`, and the open outline contains exactly 4 extra points,
inserted after the per-rectangle outline points: the first rectangle's
start-edge corners and the last rectangle's end-edge corners, which are
not inserted when `closed = true`. -/
theorem c5_closed_flag (polygon : List Vec3) (width : ℝ) (d : RibbonData)
    (hd : ribbonData polygon width = .ok d) :
    ribbon polygon width true = .ok (meshOf true d) ∧
    ribbon polygon width false = .ok (meshOf false d) ∧
    (meshOf true d).triangles = (meshOf false d).triangles ∧
    (meshOf false d).outline = rectOutline d.rectangles ++ openExtra d.rectangles ++
      (stubOutline d.stubs ++ d.capSupports.flatMap capOutline) ∧
    (meshOf true d).outline = rectOutline d.rectangles ++
      (stubOutline d.stubs ++ d.capSupports.flatMap capOutline) ∧
    openExtra d.rectangles = [d.rectangles.headI.leftStart, d.rectangles.headI.rightStart,
      (d.rectangles.getLastD default).rightEnd, (d.rectangles.getLastD default).leftEnd] ∧
    (meshOf false d).outline.length = (meshOf true d).outline.length + 4 := by
  refine ⟨by rw [ribbon, hd]; rfl, by rw [ribbon, hd]; rfl, rfl, ?_, ?_, rfl, ?_⟩
  · simp [meshOf, List.append_assoc]
  · simp [meshOf]
  · simp [meshOf, openExtra]
    omega

/-- Witness for claim C5, instantiated at the straight path. -/
theorem c5_closed_flag_witness :
    ribbon [⟨0,0,0⟩, ⟨10,0,0⟩] 1 true = .ok (meshOf true data2) ∧
    (meshOf true data2).triangles = (meshOf false data2).triangles ∧
    (meshOf false data2).outline.length = (meshOf true data2).outline.length + 4 := by
  obtain ⟨h1, _, h3, _, _, _, h7⟩ :=
    c5_closed_flag [⟨0,0,0⟩, ⟨10,0,0⟩] 1 data2 ribbonDataP2
  exact ⟨h1, h3, h7⟩


lemma segPairs_length (segs : List LineSegment) :
    (segPairs segs).length = segs.length - 1 := by
  simp [segPairs]

lemma zipJoints_length (segs : List LineSegment) (lis ris : List Vec3)
    (h1 : lis.length = segs.length - 1) (h2 : ris.length = segs.length - 1) :
    (zipJoints segs lis ris).length = segs.length - 1 := by
  simp [zipJoints, segPairs, h1, h2]

lemma rectTris_length (rects : List Rect) : (rectTris rects).length = 2 * rects.length := by
  induction rects with
  | nil => rfl
  | cons r rest ih => simp [rectTris, List.flatMap_cons] at ih ⊢; omega

lemma stubTris_length (stubs : List Stub) : (stubTris stubs).length = 2 * stubs.length := by
  induction stubs with
  | nil => rfl
  | cons s rest ih => simp [stubTris, List.flatMap_cons] at ih ⊢; omega

lemma stubsOf_length (w : ℝ) (js : List Joint) : (stubsOf w js).length = 2 * js.length := by
  induction js with
  | nil => rfl
  | cons j rest ih => simp [stubsOf, List.flatMap_cons] at ih ⊢; omega

lemma capRadialPoints_length (c : Cap) :
    (capRadialPoints c).length = (capNumIntermediatePoints c).toNat + 2 := by
  rw [capRadialPoints, List.length_cons, List.length_append, List.length_map,
    List.length_range, List.length_singleton]

lemma capTris_length (c : Cap) :
    (capTris c).length = (capRadialPoints c).length - 1 := by
  simp [capTris]

lemma capTris_flatMap_length (caps : List Cap) :
    (caps.flatMap capTris).length =
      (caps.map (fun c => (capRadialPoints c).length - 1)).sum := by
  induction caps with
  | nil => rfl
  | cons c rest ih => simp [List.flatMap_cons, ih, capTris_length]

lemma filterInner_ne_nil (prev : Vec3) : ∀ (l : List Vec3), l ≠ [] → filterInner prev l ≠ []
  | [], h => absurd rfl h
  | [b], _ => by simp [filterInner]
  | b :: c :: rest, _ => by
    rw [filterInner]
    split
    · exact filterInner_ne_nil b (c :: rest) (by simp)
    · simp

lemma removeParallel2D_eq_cons (a b : Vec3) (rest : List Vec3) :
    removeParallel2D (a :: b :: rest) = a :: filterInner a (b :: rest) := rfl

lemma removeParallel2D_length (p : List Vec3) (h : 2 ≤ p.length) :
    2 ≤ (removeParallel2D p).length := by
  cases p with
  | nil => simp at h
  | cons a rest =>
    cases rest with
    | nil => simp at h
    | cons b rest2 =>
      rw [removeParallel2D_eq_cons]
      have hnn := filterInner_ne_nil a (b :: rest2) (List.cons_ne_nil b rest2)
      have hpos := List.length_pos.mpr hnn
      simp only [List.length_cons]
      omega

lemma centerSegmentsOf_length (p : List Vec3) :
    (centerSegmentsOf p).length = p.length - 1 := by
  simp [centerSegmentsOf]

/-- Claim C4 (amended): for every valid input the triangle list contains
exactly 2 triangles per rectangle (one rectangle per filtered centre
segment), exactly 2 triangles per stub quad (2 stubs per interior
joint, fanned from vertex 0 as `[0,1,2]` and `[0,2,3]`), and exactly
`radialPoints.length - 1` triangles per cap fan, where
`radialPoints.length = max(numIntermediatePoints, 0) + 2` — the
`toNat`-clamped form, since `numIntermediatePoints` can be negative
when the normalized sweep is negative or below one slice. -/
theorem c4_amended (polygon : List Vec3) (width : ℝ) (closed : Bool) (d : RibbonData)
    (hd : ribbonData polygon width = .ok d) :
    ribbon polygon width closed = .ok (meshOf closed d) ∧
    (meshOf closed d).triangles.length =
      2 * d.rectangles.length + 2 * d.stubs.length +
        (d.capSupports.map (fun c => (capRadialPoints c).length - 1)).sum ∧
    d.rectangles.length = d.centerSegments.length ∧
    d.centerSegments.length = d.polygonF.length - 1 ∧
    d.stubs.length = 2 * d.joints.length ∧
    d.capSupports.length = d.joints.length ∧
    (∀ c ∈ d.capSupports,
      (capRadialPoints c).length = (capNumIntermediatePoints c).toNat + 2 ∧
      (capTris c).length = (capRadialPoints c).length - 1) ∧
    stubTris d.stubs = d.stubs.flatMap (fun s => [(s.a, s.b, s.c), (s.a, s.c, s.d)]) := by
  obtain ⟨hlen, hw, lr, hstep, rfl⟩ := ribbonData_ok hd
  obtain ⟨hl1, hl2⟩ := intersectionStep_ok_length _ _ hstep
  have hzl : ((segPairs (leftSegmentsOf width (centerSegmentsOf (removeParallel2D polygon)))).zip
      (segPairs (rightSegmentsOf width (centerSegmentsOf (removeParallel2D polygon))))).length =
      (centerSegmentsOf (removeParallel2D polygon)).length - 1 := by
    simp [segPairs, leftSegmentsOf, rightSegmentsOf]
  rw [hzl] at hl1 hl2
  have hjlen : (assembleData polygon width lr.1 lr.2).joints.length =
      (centerSegmentsOf (removeParallel2D polygon)).length - 1 := by
    simp only [assembleData]
    rw [resolve_joints_length, zipJoints_length _ _ _ hl1 hl2]
  have hrlen : (assembleData polygon width lr.1 lr.2).rectangles.length =
      (centerSegmentsOf (removeParallel2D polygon)).length - 1 + 1 := by
    simp only [assembleData]
    rw [resolve_rects_length, zipJoints_length _ _ _ hl1 hl2]
  have hcs : (assembleData polygon width lr.1 lr.2).centerSegments =
      centerSegmentsOf (removeParallel2D polygon) := rfl
  have hcslen : 1 ≤ (centerSegmentsOf (removeParallel2D polygon)).length := by
    rw [centerSegmentsOf_length]
    have := removeParallel2D_length polygon hlen
    omega
  refine ⟨by rw [ribbon, hd]; rfl, ?_, ?_, ?_, ?_, ?_, ?_, rfl⟩
  · simp only [meshOf, List.length_append]
    rw [rectTris_length, stubTris_length, capTris_flatMap_length]
  · rw [hrlen, hcs]; omega
  · rw [hcs, centerSegmentsOf_length]; rfl
  · show (stubsOf width (assembleData polygon width lr.1 lr.2).joints).length = _
    rw [stubsOf_length]
  · show ((assembleData polygon width lr.1 lr.2).joints.map (capOf width)).length = _
    rw [List.length_map]
  · intro c _
    exact ⟨capRadialPoints_length c, capTris_length c⟩

/-- Witness for the amended claim C4, instantiated at the straight path. -/
theorem c4_amended_witness :
    ribbon [⟨0,0,0⟩, ⟨10,0,0⟩] 1 false = .ok (meshOf false data2) ∧
    (meshOf false data2).triangles.length =
      2 * data2.rectangles.length + 2 * data2.stubs.length +
        (data2.capSupports.map (fun c => (capRadialPoints c).length - 1)).sum ∧
    data2.rectangles.length = data2.centerSegments.length := by
  obtain ⟨h1, h2, h3, -⟩ := c4_amended [⟨0,0,0⟩, ⟨10,0,0⟩] 1 false data2 ribbonDataP2
  exact ⟨h1, h2, h3⟩


/-- Claim C4 counterexample: on the valid path `[(0,0,0),(3,4,0),(-4,28,0)]`
with width 1 the single cap fan's normalized sweep is negative (the
start angle is just below 360 degrees while the end angle is small), so
`numSlices` and `numIntermediatePoints` are negative, the rotation loop
runs zero times, and `radialPoints.length = 2` while
`numIntermediatePoints + 2 ≤ 0`; the claimed equation
`radialPoints.length = numIntermediatePoints + 2` fails. -/
theorem c4_counterexample :
    ribbonData path4c 1 = .ok data4c ∧
    data4c.capSupports = [capC4] ∧
    (capRadialPoints capC4).length = 2 ∧
    (capTris capC4).length = 1 ∧
    capNumIntermediatePoints capC4 < 0 ∧
    ((capRadialPoints capC4).length : ℤ) ≠ capNumIntermediatePoints capC4 + 2 := by
  have hneg : capNumIntermediatePoints capC4 < 0 := by
    have := capC4_slices_neg
    rw [capNumIntermediatePoints]
    omega
  have hrad := capC4_radial
  have hlen : (capRadialPoints capC4).length = 2 := by rw [hrad]; rfl
  refine ⟨ribbonDataPath4c, rfl, hlen, ?_, hneg, ?_⟩
  · simp [capTris, hrad]
  · rw [hlen]
    omega

/-- Claim C8: if two parallel or coincident offset lines (zero
determinant) reach the 2D intersection step despite the collinear
filter, the operation fails with `DegenerateGeometry` instead of
returning a silently wrong intersection point. -/
theorem c8_degenerate (polygon : List Vec3) (width : ℝ) (closed : Bool)
    (hlen : ¬ polygon.length < 2) (hw : ¬ width ≤ 0)
    (hzero : ∃ q ∈ (segPairs (leftSegmentsOf width (centerSegmentsOf
        (removeParallel2D polygon)))).zip
          (segPairs (rightSegmentsOf width (centerSegmentsOf (removeParallel2D polygon)))),
      lineDet q.1.1.from' q.1.1.to' q.1.2.from' q.1.2.to' = 0 ∨
      lineDet q.2.1.from' q.2.1.to' q.2.2.from' q.2.2.to' = 0) :
    ribbon polygon width closed = .error .DegenerateGeometry := by
  rw [ribbon]
  simp only [ribbonData]
  rw [if_neg hlen, if_neg hw, intersectionStep_error_of_zero _ hzero]
  rfl

/-- Witness for claim C8: a path that doubles back through a repeated
point survives the collinear filter with a degenerate zero-length
segment whose offset lines are coincident, and the builder fails with
`DegenerateGeometry`. -/
theorem c8_degenerate_witness :
    ribbon [⟨0,0,0⟩, ⟨1,1,0⟩, ⟨0,0,0⟩, ⟨5,0,0⟩] 1 false = .error .DegenerateGeometry := by
  apply c8_degenerate
  · norm_num
  · norm_num
  · have hpairs : (segPairs (leftSegmentsOf 1 (centerSegmentsOf
        (removeParallel2D [⟨0,0,0⟩, ⟨1,1,0⟩, ⟨0,0,0⟩, ⟨5,0,0⟩])))).zip
          (segPairs (rightSegmentsOf 1 (centerSegmentsOf
            (removeParallel2D [⟨0,0,0⟩, ⟨1,1,0⟩, ⟨0,0,0⟩, ⟨5,0,0⟩])))) =
        [((⟨⟨0,0,0⟩, ⟨0,0,0⟩, ⟨0,0,0⟩, 0⟩, ⟨⟨0,1,0⟩, ⟨5,1,0⟩, ⟨1,0,0⟩, 5⟩),
          (⟨⟨0,0,0⟩, ⟨0,0,0⟩, ⟨0,0,0⟩, 0⟩, ⟨⟨0,-1,0⟩, ⟨5,-1,0⟩, ⟨1,0,0⟩, 5⟩))] := by
      norm_num [removeParallel2D_eq_cons, filterInner, collinear2D, cross2D,
        centerSegmentsOf, leftSegmentsOf, rightSegmentsOf, mkLineSegment,
        offsetDirOf, zAxis, norm, sub, add, cross, multiply, length, segPairs, sqrt25]
    rw [hpairs]
    exact ⟨_, List.mem_singleton.mpr rfl, Or.inl (by norm_num [lineDet])⟩


lemma atan2_bounds (y x : ℝ) : -Real.pi < atan2 y x ∧ atan2 y x ≤ Real.pi := by
  have hpi := Real.pi_pos
  have ha1 := Real.arctan_lt_pi_div_two (y / x)
  have ha2 := Real.neg_pi_div_two_lt_arctan (y / x)
  rw [atan2]
  split_ifs with hx hx2 hy hy2 hy3
  · exact ⟨by nlinarith, by nlinarith⟩
  · have hyx : y / x ≤ 0 := div_nonpos_of_nonneg_of_nonpos hy hx2.le
    have h0 : Real.arctan (y / x) ≤ Real.arctan 0 := Real.arctan_strictMono.monotone hyx
    rw [Real.arctan_zero] at h0
    exact ⟨by nlinarith, by nlinarith⟩
  · have hyx : 0 < y / x := div_pos_of_neg_of_neg (by linarith) hx2
    have h0 := arctan_pos' _ hyx
    exact ⟨by nlinarith, by nlinarith⟩
  · exact ⟨by nlinarith, by nlinarith⟩
  · exact ⟨by nlinarith, by nlinarith⟩
  · exact ⟨by nlinarith, by nlinarith⟩

lemma degrees_le_degrees {a b : ℝ} (h : a ≤ b) : degrees a ≤ degrees b := by
  have hpi := Real.pi_pos
  rw [degrees, degrees]
  gcongr

lemma degrees_lt_degrees {a b : ℝ} (h : a < b) : degrees a < degrees b := by
  have hpi := Real.pi_pos
  rw [degrees, degrees]
  have h2 : a / Real.pi < b / Real.pi := by
    rw [div_lt_div_iff_of_pos_right hpi]
    exact h
  nlinarith

lemma degrees_pi : degrees Real.pi = 180 := by
  rw [degrees, div_self Real.pi_ne_zero, one_mul]

lemma degrees_neg_pi : degrees (-Real.pi) = -180 := by
  rw [degrees, neg_div, div_self Real.pi_ne_zero]
  norm_num

lemma norm360_mem {a : ℝ} (h1 : -Real.pi < a) (h2 : a ≤ Real.pi) :
    0 ≤ norm360 (degrees a) ∧ norm360 (degrees a) < 360 := by
  have hd1 : -180 < degrees a := by
    have := degrees_lt_degrees h1
    rwa [degrees_neg_pi] at this
  have hd2 : degrees a ≤ 180 := by
    have := degrees_le_degrees h2
    rwa [degrees_pi] at this
  rw [norm360]
  split_ifs with hneg
  · constructor <;> linarith
  · constructor <;> linarith


lemma capStartAngle_mem (c : Cap) :
    0 ≤ capStartAngle c ∧ capStartAngle c < 360 := by
  rw [capStartAngle]
  obtain ⟨h1, h2⟩ := atan2_bounds (c.p2.y - c.p1.y) (c.p2.x - c.p1.x)
  exact norm360_mem h1 h2

lemma capEndAngle_mem (c : Cap) :
    0 < capEndAngle c ∧ capEndAngle c ≤ 360 := by
  obtain ⟨h1, h2⟩ := atan2_bounds (c.p0.y - c.p1.y) (c.p0.x - c.p1.x)
  have h0 : 0 ≤ capEndAngle0 c ∧ capEndAngle0 c < 360 := norm360_mem h1 h2
  rw [capEndAngle]
  split_ifs with hz
  · norm_num
  · exact ⟨lt_of_le_of_ne h0.1 (Ne.symm hz), by linarith [h0.2]⟩

lemma capNumSlices_le (c : Cap) : capNumSlices c ≤ 36 := by
  obtain ⟨hs1, hs2⟩ := capStartAngle_mem c
  obtain ⟨he1, he2⟩ := capEndAngle_mem c
  rw [capNumSlices]
  have hle : (capEndAngle c - capStartAngle c) / 10 ≤ (36 : ℝ) := by
    rw [div_le_iff₀ (by norm_num : (0:ℝ) < 10)]
    linarith
  calc ⌊(capEndAngle c - capStartAngle c) / 10⌋ ≤ ⌊(36 : ℝ)⌋ := Int.floor_le_floor hle
    _ = 36 := by norm_num

/-- Claim C6: for every cap fan the start and end angles are computed
with atan2 about the pivot, normalized into `[0, 360)` degrees, an end
angle of exactly 0 is remapped to 360, the slice count is
`floor((endAngle - startAngle)/10)`, the per-slice rotation is the
sweep divided evenly by the slice count, and the slice count never
exceeds 36. -/
theorem c6_cap_fan (polygon : List Vec3) (width : ℝ) (d : RibbonData) (c : Cap)
    (_hd : ribbonData polygon width = .ok d) (_hc : c ∈ d.capSupports) :
    capStartAngle c = norm360 (degrees (atan2 (c.p2.y - c.p1.y) (c.p2.x - c.p1.x))) ∧
    capEndAngle c = (if capEndAngle0 c = 0 then 360 else capEndAngle0 c) ∧
    (0 ≤ capStartAngle c ∧ capStartAngle c < 360) ∧
    (0 < capEndAngle c ∧ capEndAngle c ≤ 360) ∧
    (capEndAngle0 c = 0 → capEndAngle c = 360) ∧
    capNumSlices c = ⌊(capEndAngle c - capStartAngle c) / 10⌋ ∧
    capRotationAngle c =
      (capEndAngle c - capStartAngle c) / (capNumSlices c : ℝ) / 180 * Real.pi ∧
    capNumSlices c ≤ 36 := by
  refine ⟨rfl, rfl, capStartAngle_mem c, capEndAngle_mem c, ?_, rfl, rfl, capNumSlices_le c⟩
  intro h0
  rw [capEndAngle, if_pos h0]

/-- Witness for claim C6, instantiated at the L-shaped path's cap fan. -/
theorem c6_cap_fan_witness :
    ∃ c, c ∈ data3.capSupports ∧
      (0 ≤ capStartAngle c ∧ capStartAngle c < 360) ∧
      (0 < capEndAngle c ∧ capEndAngle c ≤ 360) ∧
      capNumSlices c ≤ 36 := by
  refine ⟨⟨⟨11,0,0⟩, ⟨10,0,0⟩, ⟨10,-1,0⟩⟩, by simp [data3], ?_⟩
  obtain ⟨-, -, h3, h4, -, -, -, h8⟩ :=
    c6_cap_fan [⟨0,0,0⟩, ⟨10,0,0⟩, ⟨10,10,0⟩] 1 data3 ⟨⟨11,0,0⟩, ⟨10,0,0⟩, ⟨10,-1,0⟩⟩
      ribbonDataPath3 (by simp [data3])
  exact ⟨h3, h4, h8⟩


lemma offset_planar (v : Vec3) : (norm (cross zAxis v)).z = 0 := by
  simp [norm, cross, zAxis, multiply]

lemma neg_offset_planar (v : Vec3) : (neg (norm (cross zAxis v))).z = 0 := by
  simp [neg, norm, cross, zAxis, multiply]

lemma add_mul_planar {a b : Vec3} (s : ℝ) (ha : a.z = 0) (hb : b.z = 0) :
    (add a (multiply b s)).z = 0 := by
  simp [add, multiply, ha, hb]

lemma filterInner_subset (prev : Vec3) :
    ∀ (l : List Vec3), ∀ q ∈ filterInner prev l, q ∈ l
  | [], q, h => by simp [filterInner] at h
  | [b], q, h => by simpa [filterInner] using h
  | b :: c :: rest, q, h => by
    rw [filterInner] at h
    split at h
    · exact List.mem_cons_of_mem b (filterInner_subset b (c :: rest) q h)
    · rcases List.mem_cons.mp h with rfl | h2
      · exact List.mem_cons_self q (c :: rest)
      · exact List.mem_cons_of_mem b (filterInner_subset b (c :: rest) q h2)

lemma removeParallel2D_subset (p : List Vec3) : ∀ q ∈ removeParallel2D p, q ∈ p := by
  cases p with
  | nil => simp [removeParallel2D]
  | cons a rest =>
    cases rest with
    | nil => simp [removeParallel2D]
    | cons b rest2 =>
      intro q h
      rw [removeParallel2D_eq_cons] at h
      rcases List.mem_cons.mp h with rfl | h2
      · exact List.mem_cons_self q _
      · exact List.mem_cons_of_mem a (filterInner_subset a (b :: rest2) q h2)

lemma centerSegmentsOf_planar (poly : List Vec3) (hz : ∀ q ∈ poly, q.z = 0) :
    ∀ s ∈ centerSegmentsOf poly, s.from'.z = 0 ∧ s.to'.z = 0 := by
  intro s hs
  simp only [centerSegmentsOf, List.mem_map] at hs
  obtain ⟨⟨a, b⟩, hab, rfl⟩ := hs
  obtain ⟨ha, hb⟩ := List.of_mem_zip hab
  exact ⟨hz a ha, hz b (List.mem_of_mem_tail hb)⟩

lemma intersectionStep_planar (l : List ((LineSegment × LineSegment) × LineSegment × LineSegment)) :
    ∀ lr, intersectionStep l = .ok lr →
      (∀ v ∈ lr.1, v.z = 0) ∧ (∀ v ∈ lr.2, v.z = 0) := by
  induction l with
  | nil =>
    intro lr h
    simp only [intersectionStep, Except.ok.injEq] at h
    simp [← h]
  | cons q rest ih =>
    obtain ⟨⟨la, lb⟩, ra, rb⟩ := q
    intro lr h
    rw [intersectionStep] at h
    cases hA : intersect2D la.from' la.to' lb.from' lb.to' with
    | error eA => rw [hA] at h; simp at h
    | ok l3 =>
      rw [hA] at h
      cases hB : intersect2D ra.from' ra.to' rb.from' rb.to' with
      | error eB => rw [hB] at h; simp at h
      | ok r3 =>
        rw [hB] at h
        cases hC : intersectionStep rest with
        | error eC => rw [hC] at h; simp at h
        | ok lr' =>
          rw [hC] at h
          simp only [Except.ok.injEq] at h
          obtain ⟨ih1, ih2⟩ := ih lr' hC
          subst h
          constructor
          · intro v hv
            rcases List.mem_cons.mp hv with rfl | hv2
            · rfl
            · exact ih1 v hv2
          · intro v hv
            rcases List.mem_cons.mp hv with rfl | hv2
            · rfl
            · exact ih2 v hv2

lemma jointStep_planar (cs ncs : LineSegment) (li ri ls rs : Vec3)
    (hli : li.z = 0) (hri : ri.z = 0) (hcs : cs.to'.z = 0) :
    (jointStep cs ncs li ri ls rs).inside.z = 0 ∧
    (jointStep cs ncs li ri ls rs).pivot.z = 0 ∧
    (jointStep cs ncs li ri ls rs).offset1.z = 0 ∧
    (jointStep cs ncs li ri ls rs).offset2.z = 0 := by
  rw [jointStep]
  split
  · exact ⟨hli, hcs, neg_offset_planar _, neg_offset_planar _⟩
  · exact ⟨hri, hcs, offset_planar _, offset_planar _⟩

lemma joint_derived_planar {j : Joint} (w : ℝ)
    (h : j.inside.z = 0 ∧ j.pivot.z = 0 ∧ j.offset1.z = 0 ∧ j.offset2.z = 0) :
    (leftEndOf w j).z = 0 ∧ (rightEndOf w j).z = 0 ∧
    (nextLeftStart w j).z = 0 ∧ (nextRightStart w j).z = 0 := by
  obtain ⟨h1, h2, h3, h4⟩ := h
  refine ⟨?_, ?_, ?_, ?_⟩ <;>
    simp [leftEndOf, rightEndOf, nextLeftStart, nextRightStart] <;>
    split <;> simp [add_mul_planar, h1, h3, h4]

lemma resolve_planar (w : ℝ) (lastL lastR : Vec3) (hlL : lastL.z = 0) (hlR : lastR.z = 0) :
    ∀ (ins : List (LineSegment × LineSegment × Vec3 × Vec3)) (ls rs : Vec3),
      (∀ q ∈ ins, q.2.2.1.z = 0 ∧ q.2.2.2.z = 0 ∧ q.1.to'.z = 0) →
      ls.z = 0 → rs.z = 0 →
      (∀ j ∈ (resolve w lastL lastR ins ls rs).1,
        j.inside.z = 0 ∧ j.pivot.z = 0 ∧ j.offset1.z = 0 ∧ j.offset2.z = 0) ∧
      (∀ r ∈ (resolve w lastL lastR ins ls rs).2,
        r.leftStart.z = 0 ∧ r.rightStart.z = 0 ∧ r.rightEnd.z = 0 ∧ r.leftEnd.z = 0)
  | [], ls, rs, hins, hls, hrs => by
    constructor
    · simp [resolve]
    · intro r hr
      simp only [resolve, List.mem_singleton] at hr
      subst hr
      exact ⟨hls, hrs, hlR, hlL⟩
  | (cs, ncs, li, ri) :: rest, ls, rs, hins, hls, hrs => by
    obtain ⟨hli, hri, hcs⟩ := hins _ (List.mem_cons_self _ _)
    have hj := jointStep_planar cs ncs li ri ls rs hli hri hcs
    have hder := joint_derived_planar w hj
    have hrest := resolve_planar w lastL lastR hlL hlR rest
      (nextLeftStart w (jointStep cs ncs li ri ls rs))
      (nextRightStart w (jointStep cs ncs li ri ls rs))
      (fun q hq => hins q (List.mem_cons_of_mem _ hq)) hder.2.2.1 hder.2.2.2
    constructor
    · intro j hj2
      simp only [resolve, List.mem_cons] at hj2
      rcases hj2 with rfl | hj2
      · exact hj
      · exact hrest.1 j hj2
    · intro r hr
      simp only [resolve, List.mem_cons] at hr
      rcases hr with rfl | hr
      · exact ⟨hls, hrs, hder.2.1, hder.1⟩
      · exact hrest.2 r hr


lemma stub_planar {j : Joint} (w : ℝ)
    (h : j.inside.z = 0 ∧ j.pivot.z = 0 ∧ j.offset1.z = 0 ∧ j.offset2.z = 0) :
    ((stub1Of w j).a.z = 0 ∧ (stub1Of w j).b.z = 0 ∧
      (stub1Of w j).c.z = 0 ∧ (stub1Of w j).d.z = 0) ∧
    ((stub2Of w j).a.z = 0 ∧ (stub2Of w j).b.z = 0 ∧
      (stub2Of w j).c.z = 0 ∧ (stub2Of w j).d.z = 0) := by
  obtain ⟨h1, h2, h3, h4⟩ := h
  exact ⟨⟨h1, h2, add_mul_planar _ h2 h4, add_mul_planar _ h1 h4⟩,
         ⟨h2, h1, add_mul_planar _ h1 h3, add_mul_planar _ h2 h3⟩⟩

lemma cap_planar {j : Joint} (w : ℝ)
    (h : j.inside.z = 0 ∧ j.pivot.z = 0 ∧ j.offset1.z = 0 ∧ j.offset2.z = 0) :
    (capOf w j).p0.z = 0 ∧ (capOf w j).p1.z = 0 ∧ (capOf w j).p2.z = 0 := by
  obtain ⟨h1, h2, h3, h4⟩ := h
  exact ⟨add_mul_planar _ h2 h4, h2, add_mul_planar _ h2 h3⟩

lemma capRadialPoints_planar {c : Cap}
    (h : c.p0.z = 0 ∧ c.p1.z = 0 ∧ c.p2.z = 0) :
    ∀ q ∈ capRadialPoints c, q.z = 0 := by
  intro q hq
  rw [capRadialPoints] at hq
  rcases List.mem_cons.mp hq with rfl | hq2
  · exact h.2.2
  · rcases List.mem_append.mp hq2 with hq3 | hq3
    · simp only [List.mem_map] at hq3
      obtain ⟨i, -, rfl⟩ := hq3
      simp [add, h.2.1]
    · rw [List.mem_singleton.mp hq3]
      exact h.1

lemma capTris_planar {c : Cap} (h : c.p0.z = 0 ∧ c.p1.z = 0 ∧ c.p2.z = 0) :
    ∀ t ∈ capTris c, t.1.z = 0 ∧ t.2.1.z = 0 ∧ t.2.2.z = 0 := by
  intro t ht
  simp only [capTris, List.mem_map] at ht
  obtain ⟨⟨q1, q2⟩, hq, rfl⟩ := ht
  obtain ⟨hq1, hq2⟩ := List.of_mem_zip hq
  exact ⟨capRadialPoints_planar h q1 hq1,
    capRadialPoints_planar h q2 (List.mem_of_mem_tail hq2),
    h.2.1⟩

lemma capOutline_planar {c : Cap} (h : c.p0.z = 0 ∧ c.p1.z = 0 ∧ c.p2.z = 0) :
    ∀ q ∈ capOutline c, q.z = 0 := by
  intro q hq
  simp only [capOutline, List.mem_flatMap] at hq
  obtain ⟨⟨q1, q2⟩, hq12, hmem⟩ := hq
  obtain ⟨hq1, hq2⟩ := List.of_mem_zip hq12
  rcases List.mem_cons.mp hmem with rfl | h2
  · exact capRadialPoints_planar h q hq1
  · rw [List.mem_singleton.mp h2]
    exact capRadialPoints_planar h q2 (List.mem_of_mem_tail hq2)

lemma getLastD_mem {α : Type} [Inhabited α] (a : α) (rest : List α) :
    (a :: rest).getLastD default ∈ a :: rest := by
  rw [List.getLastD_cons]
  exact List.getLastD_mem_cons rest a

/-- Claim C10: for every valid input path whose points all have `z = 0`,
every vertex of every triangle and every outline point of the returned
mesh has `z = 0`: offset directions have zero Z component, intersection
points have Z forced to 0, and fan radial points are built with `z = 0`
about a pivot with `z = 0`. -/
theorem c10_planar (polygon : List Vec3) (width : ℝ) (closed : Bool) (m : Mesh)
    (hz : ∀ q ∈ polygon, q.z = 0)
    (hm : ribbon polygon width closed = .ok m) :
    (∀ t ∈ m.triangles, t.1.z = 0 ∧ t.2.1.z = 0 ∧ t.2.2.z = 0) ∧
    (∀ q ∈ m.outline, q.z = 0) := by
  rw [ribbon] at hm
  cases hD : ribbonData polygon width with
  | error e => rw [hD] at hm; simp [Except.map] at hm
  | ok d =>
    rw [hD] at hm
    simp only [Except.map, Except.ok.injEq] at hm
    subst hm
    obtain ⟨hlen, hw, lr, hstep, rfl⟩ := ribbonData_ok hD
    -- planar facts for the building blocks
    have hpolyF : ∀ q ∈ removeParallel2D polygon, q.z = 0 :=
      fun q hq => hz q (removeParallel2D_subset polygon q hq)
    have hcseg := centerSegmentsOf_planar (removeParallel2D polygon) hpolyF
    have hlseg : ∀ s ∈ leftSegmentsOf width (centerSegmentsOf (removeParallel2D polygon)),
        s.from'.z = 0 ∧ s.to'.z = 0 := by
      intro s hs
      simp only [leftSegmentsOf, List.mem_map] at hs
      obtain ⟨s0, hs0, rfl⟩ := hs
      obtain ⟨h1, h2⟩ := hcseg s0 hs0
      constructor <;>
        exact add_mul_planar _ (by assumption) (offset_planar _)
    have hrseg : ∀ s ∈ rightSegmentsOf width (centerSegmentsOf (removeParallel2D polygon)),
        s.from'.z = 0 ∧ s.to'.z = 0 := by
      intro s hs
      simp only [rightSegmentsOf, List.mem_map] at hs
      obtain ⟨s0, hs0, rfl⟩ := hs
      obtain ⟨h1, h2⟩ := hcseg s0 hs0
      constructor <;>
        exact add_mul_planar _ (by assumption) (offset_planar _)
    obtain ⟨hints1, hints2⟩ := intersectionStep_planar _ _ hstep
    -- planar inputs for the joint loop
    have hins : ∀ q ∈ zipJoints (centerSegmentsOf (removeParallel2D polygon)) lr.1 lr.2,
        q.2.2.1.z = 0 ∧ q.2.2.2.z = 0 ∧ q.1.to'.z = 0 := by
      intro q hq
      simp only [zipJoints, List.mem_map] at hq
      obtain ⟨⟨⟨s1, s2⟩, ⟨v1, v2⟩⟩, hq2, rfl⟩ := hq
      obtain ⟨hq3, hq4⟩ := List.of_mem_zip hq2
      obtain ⟨hv1, hv2⟩ := List.of_mem_zip hq4
      obtain ⟨hs1, -⟩ := List.of_mem_zip hq3
      exact ⟨hints1 v1 hv1, hints2 v2 hv2, (hcseg s1 hs1).2⟩
    have hheadL : (leftSegmentsOf width (centerSegmentsOf (removeParallel2D polygon))).headI.from'.z = 0 := by
      cases hLS : leftSegmentsOf width (centerSegmentsOf (removeParallel2D polygon)) with
      | nil => rfl
      | cons s rest => exact (hlseg s (hLS ▸ List.mem_cons_self s rest)).1
    have hheadR : (rightSegmentsOf width (centerSegmentsOf (removeParallel2D polygon))).headI.from'.z = 0 := by
      cases hRS : rightSegmentsOf width (centerSegmentsOf (removeParallel2D polygon)) with
      | nil => rfl
      | cons s rest => exact (hrseg s (hRS ▸ List.mem_cons_self s rest)).1
    have hlastL : ((leftSegmentsOf width (centerSegmentsOf (removeParallel2D polygon))).getLastD default).to'.z = 0 := by
      cases hLS : leftSegmentsOf width (centerSegmentsOf (removeParallel2D polygon)) with
      | nil => rfl
      | cons s rest =>
        exact (hlseg _ (hLS ▸ getLastD_mem s rest)).2
    have hlastR : ((rightSegmentsOf width (centerSegmentsOf (removeParallel2D polygon))).getLastD default).to'.z = 0 := by
      cases hRS : rightSegmentsOf width (centerSegmentsOf (removeParallel2D polygon)) with
      | nil => rfl
      | cons s rest =>
        exact (hrseg _ (hRS ▸ getLastD_mem s rest)).2
    obtain ⟨hjs, hrects⟩ := resolve_planar width _ _ hlastL hlastR
      (zipJoints (centerSegmentsOf (removeParallel2D polygon)) lr.1 lr.2)
      _ _ hins hheadL hheadR
    -- the assembled data
    have hdj : ∀ j ∈ (assembleData polygon width lr.1 lr.2).joints,
        j.inside.z = 0 ∧ j.pivot.z = 0 ∧ j.offset1.z = 0 ∧ j.offset2.z = 0 := hjs
    have hdr : ∀ r ∈ (assembleData polygon width lr.1 lr.2).rectangles,
        r.leftStart.z = 0 ∧ r.rightStart.z = 0 ∧ r.rightEnd.z = 0 ∧ r.leftEnd.z = 0 := hrects
    have hds : ∀ s ∈ (assembleData polygon width lr.1 lr.2).stubs,
        s.a.z = 0 ∧ s.b.z = 0 ∧ s.c.z = 0 ∧ s.d.z = 0 := by
      intro s hs
      have : s ∈ stubsOf width (assembleData polygon width lr.1 lr.2).joints := hs
      simp only [stubsOf, List.mem_flatMap] at this
      obtain ⟨j, hj, hmem⟩ := this
      have hp := hdj j hj
      rcases List.mem_cons.mp hmem with rfl | h2
      · exact (stub_planar width hp).1
      · rw [List.mem_singleton.mp h2]
        exact (stub_planar width hp).2
    have hdc : ∀ c ∈ (assembleData polygon width lr.1 lr.2).capSupports,
        c.p0.z = 0 ∧ c.p1.z = 0 ∧ c.p2.z = 0 := by
      intro c hc
      have : c ∈ (assembleData polygon width lr.1 lr.2).joints.map (capOf width) := hc
      simp only [List.mem_map] at this
      obtain ⟨j, hj, rfl⟩ := this
      exact cap_planar width (hdj j hj)
    set dd := assembleData polygon width lr.1 lr.2 with hdd
    have hrects_head : dd.rectangles.headI.leftStart.z = 0 ∧
        dd.rectangles.headI.rightStart.z = 0 := by
      cases hR : dd.rectangles with
      | nil => exact ⟨rfl, rfl⟩
      | cons r rest =>
        have := hdr r (hR ▸ List.mem_cons_self r rest)
        exact ⟨this.1, this.2.1⟩
    have hrects_last : (dd.rectangles.getLastD default).rightEnd.z = 0 ∧
        (dd.rectangles.getLastD default).leftEnd.z = 0 := by
      cases hR : dd.rectangles with
      | nil => exact ⟨rfl, rfl⟩
      | cons r rest =>
        have := hdr ((r :: rest).getLastD default) (by rw [hR]; exact getLastD_mem r rest)
        exact ⟨this.2.2.1, this.2.2.2⟩
    constructor
    · intro t ht
      simp only [meshOf, List.mem_append] at ht
      rcases ht with (ht | ht) | ht
      · simp only [rectTris, List.mem_flatMap] at ht
        obtain ⟨r, hr, hmem⟩ := ht
        have hp := hdr r hr
        rcases List.mem_cons.mp hmem with rfl | h2
        · exact ⟨hp.1, hp.2.1, hp.2.2.1⟩
        · rw [List.mem_singleton.mp h2]
          exact ⟨hp.1, hp.2.2.1, hp.2.2.2⟩
      · simp only [stubTris, List.mem_flatMap] at ht
        obtain ⟨s, hs, hmem⟩ := ht
        have hp := hds s hs
        rcases List.mem_cons.mp hmem with rfl | h2
        · exact ⟨hp.1, hp.2.1, hp.2.2.1⟩
        · rw [List.mem_singleton.mp h2]
          exact ⟨hp.1, hp.2.2.1, hp.2.2.2⟩
      · simp only [List.mem_flatMap] at ht
        obtain ⟨c, hc, hmem⟩ := ht
        exact capTris_planar (hdc c hc) t hmem
    · intro q hq
      simp only [meshOf, List.mem_append] at hq
      rcases hq with ((hq | hq) | hq) | hq
      · simp only [rectOutline, List.mem_flatMap] at hq
        obtain ⟨r, hr, hmem⟩ := hq
        have hp := hdr r hr
        simp only [List.mem_cons, List.not_mem_nil, or_false] at hmem
        rcases hmem with rfl | rfl | rfl | rfl
        · exact hp.2.1
        · exact hp.2.2.1
        · exact hp.2.2.2
        · exact hp.1
      · split at hq
        · simp at hq
        · simp only [openExtra, List.mem_cons, List.not_mem_nil, or_false] at hq
          rcases hq with rfl | rfl | rfl | rfl
          · exact hrects_head.1
          · exact hrects_head.2
          · exact hrects_last.1
          · exact hrects_last.2
      · simp only [stubOutline, List.mem_flatMap] at hq
        obtain ⟨s, hs, hmem⟩ := hq
        have hp := hds s hs
        rcases List.mem_cons.mp hmem with rfl | h2
        · exact hp.2.2.1
        · rw [List.mem_singleton.mp h2]
          exact hp.2.2.2
      · simp only [List.mem_flatMap] at hq
        obtain ⟨c, hc, hmem⟩ := hq
        exact capOutline_planar (hdc c hc) q hmem


lemma length_sq_planar (v : Vec3) (hv : v.z = 0) :
    length v ^ 2 = v.x ^ 2 + v.y ^ 2 := by
  rw [length, hv, Real.sq_sqrt (by positivity)]
  ring

lemma length_pos_planar (v : Vec3) (hv : v.z = 0) (h : v.x ≠ 0 ∨ v.y ≠ 0) :
    0 < length v := by
  rw [length, hv]
  apply Real.sqrt_pos.mpr
  rcases h with h | h
  · have := pow_two_pos_of_ne_zero h
    nlinarith [sq_nonneg v.y]
  · have := pow_two_pos_of_ne_zero h
    nlinarith [sq_nonneg v.x]

lemma intersect2D_eq_of_on_lines (a1 a2 b1 b2 q : Vec3)
    (hdet : lineDet a1 a2 b1 b2 ≠ 0)
    (h1 : (a2.x - a1.x) * (q.y - a1.y) - (a2.y - a1.y) * (q.x - a1.x) = 0)
    (h2 : (b2.x - b1.x) * (q.y - b1.y) - (b2.y - b1.y) * (q.x - b1.x) = 0) :
    intersect2D a1 a2 b1 b2 = .ok ⟨q.x, q.y, 0⟩ := by
  rw [intersect2D, if_neg hdet]
  have hx : ((a1.x * a2.y - a1.y * a2.x) * (b1.x - b2.x) -
      (a1.x - a2.x) * (b1.x * b2.y - b1.y * b2.x)) / lineDet a1 a2 b1 b2 = q.x := by
    rw [div_eq_iff hdet, lineDet]
    linear_combination (b1.x - b2.x) * h1 - (a1.x - a2.x) * h2
  have hy : ((a1.x * a2.y - a1.y * a2.x) * (b1.y - b2.y) -
      (a1.y - a2.y) * (b1.x * b2.y - b1.y * b2.x)) / lineDet a1 a2 b1 b2 = q.y := by
    rw [div_eq_iff hdet, lineDet]
    linear_combination (b1.y - b2.y) * h1 - (a1.y - a2.y) * h2
  rw [hx, hy]


lemma norm_planar_unit (a : Vec3) (ha : a.z = 0) (h1 : a.x ^ 2 + a.y ^ 2 = 1) :
    norm a = a := by
  have hl : length a = 1 := by
    rw [length, ha]
    rw [show a.x ^ 2 + a.y ^ 2 + (0:ℝ) ^ 2 = 1 by rw [← h1]; ring]
    exact Real.sqrt_one
  rw [norm, hl]
  simp [multiply]

lemma offsetDir_planar (p q : Vec3) (hp : p.z = 0) (hq : q.z = 0)
    (hpos : 0 < length (sub q p)) :
    offsetDirOf (mkLineSegment p q) =
      ⟨-(q.y - p.y) / length (sub q p), (q.x - p.x) / length (sub q p), 0⟩ := by
  have hL := length_sq_planar (sub q p) (by simp [sub, hp, hq])
  have hLne : length (sub q p) ≠ 0 := ne_of_gt hpos
  rw [offsetDirOf, mkLineSegment]
  have hdir : (norm (sub q p)) = ⟨(q.x - p.x) / length (sub q p),
      (q.y - p.y) / length (sub q p), 0⟩ := by
    rw [norm]
    simp only [multiply, sub, hp, hq]
    rw [Vec3.mk.injEq]
    refine ⟨by ring, by ring, by ring⟩
  show norm (cross zAxis (norm (sub q p))) = _
  rw [hdir]
  have hcr : cross zAxis ⟨(q.x - p.x) / length (sub q p),
      (q.y - p.y) / length (sub q p), 0⟩ =
      ⟨-(q.y - p.y) / length (sub q p), (q.x - p.x) / length (sub q p), 0⟩ := by
    simp only [cross, zAxis]
    rw [Vec3.mk.injEq]
    refine ⟨by ring, by ring, by ring⟩
  rw [hcr]
  apply norm_planar_unit _ rfl
  have hsub : (sub q p).x = q.x - p.x ∧ (sub q p).y = q.y - p.y := ⟨rfl, rfl⟩
  rw [div_pow, div_pow, div_add_div_same, neg_pow]
  rw [hsub.1, hsub.2] at hL
  rw [show (-1:ℝ)^2 * (q.y - p.y)^2 + (q.x - p.x)^2 = length (sub q p)^2 by
    rw [hL]; ring]
  rw [div_self (by positivity)]


lemma offset_intersection (p0 p1 p2 : Vec3) (w L1 L2 : ℝ)
    (_hL1 : L1 ^ 2 = (p1.x - p0.x) ^ 2 + (p1.y - p0.y) ^ 2)
    (hL2 : L2 ^ 2 = (p2.x - p1.x) ^ 2 + (p2.y - p1.y) ^ 2)
    (hL1p : 0 < L1) (hL2p : 0 < L2)
    (hC : (p1.x - p0.x) * (p2.y - p1.y) - (p1.y - p0.y) * (p2.x - p1.x) ≠ 0) :
    intersect2D
      (add p0 (multiply ⟨-(p1.y - p0.y) / L1, (p1.x - p0.x) / L1, 0⟩ w))
      (add p1 (multiply ⟨-(p1.y - p0.y) / L1, (p1.x - p0.x) / L1, 0⟩ w))
      (add p1 (multiply ⟨-(p2.y - p1.y) / L2, (p2.x - p1.x) / L2, 0⟩ w))
      (add p2 (multiply ⟨-(p2.y - p1.y) / L2, (p2.x - p1.x) / L2, 0⟩ w)) =
    .ok ⟨p1.x - w * (p1.y - p0.y) / L1 +
          (w * ((p1.x - p0.x) * (p2.x - p1.x) + (p1.y - p0.y) * (p2.y - p1.y) - L1 * L2) /
            (((p1.x - p0.x) * (p2.y - p1.y) - (p1.y - p0.y) * (p2.x - p1.x)) * L1)) *
            (p1.x - p0.x),
         p1.y + w * (p1.x - p0.x) / L1 +
          (w * ((p1.x - p0.x) * (p2.x - p1.x) + (p1.y - p0.y) * (p2.y - p1.y) - L1 * L2) /
            (((p1.x - p0.x) * (p2.y - p1.y) - (p1.y - p0.y) * (p2.x - p1.x)) * L1)) *
            (p1.y - p0.y),
         0⟩ := by
  have hL1ne : L1 ≠ 0 := ne_of_gt hL1p
  have hL2ne : L2 ≠ 0 := ne_of_gt hL2p
  have hdet : lineDet
      (add p0 (multiply ⟨-(p1.y - p0.y) / L1, (p1.x - p0.x) / L1, 0⟩ w))
      (add p1 (multiply ⟨-(p1.y - p0.y) / L1, (p1.x - p0.x) / L1, 0⟩ w))
      (add p1 (multiply ⟨-(p2.y - p1.y) / L2, (p2.x - p1.x) / L2, 0⟩ w))
      (add p2 (multiply ⟨-(p2.y - p1.y) / L2, (p2.x - p1.x) / L2, 0⟩ w)) =
      (p1.x - p0.x) * (p2.y - p1.y) - (p1.y - p0.y) * (p2.x - p1.x) := by
    simp only [lineDet, add, multiply]
    ring
  apply intersect2D_eq_of_on_lines
    (add p0 (multiply ⟨-(p1.y - p0.y) / L1, (p1.x - p0.x) / L1, 0⟩ w))
    (add p1 (multiply ⟨-(p1.y - p0.y) / L1, (p1.x - p0.x) / L1, 0⟩ w))
    (add p1 (multiply ⟨-(p2.y - p1.y) / L2, (p2.x - p1.x) / L2, 0⟩ w))
    (add p2 (multiply ⟨-(p2.y - p1.y) / L2, (p2.x - p1.x) / L2, 0⟩ w))
    ⟨p1.x - w * (p1.y - p0.y) / L1 +
        (w * ((p1.x - p0.x) * (p2.x - p1.x) + (p1.y - p0.y) * (p2.y - p1.y) - L1 * L2) /
          (((p1.x - p0.x) * (p2.y - p1.y) - (p1.y - p0.y) * (p2.x - p1.x)) * L1)) *
          (p1.x - p0.x),
       p1.y + w * (p1.x - p0.x) / L1 +
        (w * ((p1.x - p0.x) * (p2.x - p1.x) + (p1.y - p0.y) * (p2.y - p1.y) - L1 * L2) /
          (((p1.x - p0.x) * (p2.y - p1.y) - (p1.y - p0.y) * (p2.x - p1.x)) * L1)) *
          (p1.y - p0.y),
       0⟩
    (by rw [hdet]; exact hC)
  case h1 =>
    simp only [add, multiply]
    field_simp [hL1ne, hC]
    ring
  case h2 =>
    simp only [add, multiply]
    field_simp [hL1ne, hL2ne, hC]
    linear_combination (((p1.x - p0.x) * (p2.y - p1.y) - (p1.y - p0.y) * (p2.x - p1.x)) *
      L1 ^ 2 * L2 * w) * hL2


lemma cauchy_strict (v1x v1y v2x v2y L1 L2 : ℝ)
    (hL1 : L1 ^ 2 = v1x ^ 2 + v1y ^ 2) (hL2 : L2 ^ 2 = v2x ^ 2 + v2y ^ 2)
    (hL1p : 0 < L1) (hL2p : 0 < L2)
    (hC : v1x * v2y - v1y * v2x ≠ 0) :
    v1x * v2x + v1y * v2y < L1 * L2 := by
  have hlag : (v1x * v2x + v1y * v2y) ^ 2 + (v1x * v2y - v1y * v2x) ^ 2 = (L1 * L2) ^ 2 := by
    rw [mul_pow, hL1, hL2]
    ring
  have hCpos : 0 < (v1x * v2y - v1y * v2x) ^ 2 := pow_two_pos_of_ne_zero hC
  nlinarith [mul_pos hL1p hL2p]

lemma decision_iff_core (v1x v1y v2x v2y L1 L2 w : ℝ)
    (hL1 : L1 ^ 2 = v1x ^ 2 + v1y ^ 2) (hL2 : L2 ^ 2 = v2x ^ 2 + v2y ^ 2)
    (hL1p : 0 < L1) (hL2p : 0 < L2) (hw : 0 < w)
    (hC : v1x * v2y - v1y * v2x ≠ 0) :
    ((1 + w * (v1x * v2x + v1y * v2y - L1 * L2) / ((v1x * v2y - v1y * v2x) * L1)) ^ 2 * L1 ^ 2 <
      (1 - w * (v1x * v2x + v1y * v2y - L1 * L2) / ((v1x * v2y - v1y * v2x) * L1)) ^ 2 * L1 ^ 2 ↔
      0 < v1x * v2y - v1y * v2x) := by
  set C := v1x * v2y - v1y * v2x with hCdef
  set τ := w * (v1x * v2x + v1y * v2y - L1 * L2) / (C * L1) with hτ
  have hN : w * (v1x * v2x + v1y * v2y - L1 * L2) < 0 := by
    have := cauchy_strict v1x v1y v2x v2y L1 L2 hL1 hL2 hL1p hL2p hC
    nlinarith
  have hL1sq : 0 < L1 ^ 2 := by positivity
  constructor
  · intro hlt
    have hτneg : τ < 0 := by nlinarith
    by_contra hCle
    push_neg at hCle
    have hCneg : C < 0 := lt_of_le_of_ne hCle hC
    have : 0 < τ := div_pos_of_neg_of_neg hN (by nlinarith)
    linarith
  · intro hCpos
    have hτneg : τ < 0 := div_neg_of_neg_of_pos hN (by positivity)
    nlinarith

lemma sqrt_lt_sqrt_iff_of_sq (A B : ℝ) (hA : 0 ≤ A) (_hB : 0 ≤ B) :
    Real.sqrt A < Real.sqrt B ↔ A < B := by
  constructor
  · intro h
    by_contra hle
    push_neg at hle
    exact absurd (Real.sqrt_le_sqrt hle) (not_le.mpr h)
  · exact fun h => Real.sqrt_lt_sqrt hA h




lemma c9_master (p0 p1 p2 : Vec3) (w : ℝ)
    (hz0 : p0.z = 0) (hz1 : p1.z = 0) (hz2 : p2.z = 0) (hw : 0 < w)
    (hC : cross2D (sub p1 p0) (sub p2 p1) ≠ 0) :
    ∃ d, ribbonData [p0, p1, p2] w = .ok d ∧ d.joints.length = 1 ∧
      ∀ j ∈ d.joints, (j.choseLeft = true ↔ 0 < cross2D (sub p1 p0) (sub p2 p1)) := by
  have hC' : (p1.x - p0.x) * (p2.y - p1.y) - (p1.y - p0.y) * (p2.x - p1.x) ≠ 0 := by
    simpa [cross2D, sub] using hC
  have hv1 : (sub p1 p0).x ≠ 0 ∨ (sub p1 p0).y ≠ 0 := by
    by_contra h
    push_neg at h
    exact hC (by rw [cross2D, h.1, h.2]; ring)
  have hv2 : (sub p2 p1).x ≠ 0 ∨ (sub p2 p1).y ≠ 0 := by
    by_contra h
    push_neg at h
    exact hC (by rw [cross2D, h.1, h.2]; ring)
  have hz10 : (sub p1 p0).z = 0 := by simp [sub, hz0, hz1]
  have hz21 : (sub p2 p1).z = 0 := by simp [sub, hz1, hz2]
  set L1 := length (sub p1 p0) with hL1def
  set L2 := length (sub p2 p1) with hL2def
  have hL1p : 0 < L1 := length_pos_planar _ hz10 hv1
  have hL2p : 0 < L2 := length_pos_planar _ hz21 hv2
  have hL1sq : L1 ^ 2 = (p1.x - p0.x) ^ 2 + (p1.y - p0.y) ^ 2 := by
    simpa [sub] using length_sq_planar (sub p1 p0) hz10
  have hL2sq : L2 ^ 2 = (p2.x - p1.x) ^ 2 + (p2.y - p1.y) ^ 2 := by
    simpa [sub] using length_sq_planar (sub p2 p1) hz21
  have hCol : ¬ collinear2D p0 p1 p2 := hC
  -- the collinear filter keeps all three points
  have hfilt : removeParallel2D [p0, p1, p2] = [p0, p1, p2] := by
    rw [removeParallel2D_eq_cons]
    have h1 : filterInner p0 [p1, p2] =
        if collinear2D p0 p1 p2 then filterInner p1 [p2] else p1 :: filterInner p1 [p2] := rfl
    have h2 : filterInner p1 [p2] = [p2] := rfl
    rw [h1, if_neg hCol, h2]
  have hcseg : centerSegmentsOf [p0, p1, p2] = [mkLineSegment p0 p1, mkLineSegment p1 p2] := rfl
  -- explicit offset directions
  have hn1 : offsetDirOf (mkLineSegment p0 p1) =
      ⟨-(p1.y - p0.y) / L1, (p1.x - p0.x) / L1, 0⟩ := offsetDir_planar p0 p1 hz0 hz1 hL1p
  have hn2 : offsetDirOf (mkLineSegment p1 p2) =
      ⟨-(p2.y - p1.y) / L2, (p2.x - p1.x) / L2, 0⟩ := offsetDir_planar p1 p2 hz1 hz2 hL2p
  have hlsegs : leftSegmentsOf w (centerSegmentsOf [p0, p1, p2]) =
      [mkLineSegment (add p0 (multiply ⟨-(p1.y - p0.y) / L1, (p1.x - p0.x) / L1, 0⟩ w))
         (add p1 (multiply ⟨-(p1.y - p0.y) / L1, (p1.x - p0.x) / L1, 0⟩ w)),
       mkLineSegment (add p1 (multiply ⟨-(p2.y - p1.y) / L2, (p2.x - p1.x) / L2, 0⟩ w))
         (add p2 (multiply ⟨-(p2.y - p1.y) / L2, (p2.x - p1.x) / L2, 0⟩ w))] := by
    rw [hcseg]
    simp only [leftSegmentsOf, List.map_cons, List.map_nil, hn1, hn2]
    rfl
  have hrsegs : rightSegmentsOf w (centerSegmentsOf [p0, p1, p2]) =
      [mkLineSegment (add p0 (multiply ⟨-(p1.y - p0.y) / L1, (p1.x - p0.x) / L1, 0⟩ (-w)))
         (add p1 (multiply ⟨-(p1.y - p0.y) / L1, (p1.x - p0.x) / L1, 0⟩ (-w))),
       mkLineSegment (add p1 (multiply ⟨-(p2.y - p1.y) / L2, (p2.x - p1.x) / L2, 0⟩ (-w)))
         (add p2 (multiply ⟨-(p2.y - p1.y) / L2, (p2.x - p1.x) / L2, 0⟩ (-w)))] := by
    rw [hcseg]
    simp only [rightSegmentsOf, List.map_cons, List.map_nil, hn1, hn2]
    rfl
  have hleft := offset_intersection p0 p1 p2 w L1 L2 hL1sq hL2sq hL1p hL2p hC'
  have hright := offset_intersection p0 p1 p2 (-w) L1 L2 hL1sq hL2sq hL1p hL2p hC'
  set QL : Vec3 := ⟨p1.x - w * (p1.y - p0.y) / L1 +
      (w * ((p1.x - p0.x) * (p2.x - p1.x) + (p1.y - p0.y) * (p2.y - p1.y) - L1 * L2) /
        (((p1.x - p0.x) * (p2.y - p1.y) - (p1.y - p0.y) * (p2.x - p1.x)) * L1)) *
        (p1.x - p0.x),
     p1.y + w * (p1.x - p0.x) / L1 +
      (w * ((p1.x - p0.x) * (p2.x - p1.x) + (p1.y - p0.y) * (p2.y - p1.y) - L1 * L2) /
        (((p1.x - p0.x) * (p2.y - p1.y) - (p1.y - p0.y) * (p2.x - p1.x)) * L1)) *
        (p1.y - p0.y), 0⟩ with hQL
  set QR : Vec3 := ⟨p1.x - (-w) * (p1.y - p0.y) / L1 +
      ((-w) * ((p1.x - p0.x) * (p2.x - p1.x) + (p1.y - p0.y) * (p2.y - p1.y) - L1 * L2) /
        (((p1.x - p0.x) * (p2.y - p1.y) - (p1.y - p0.y) * (p2.x - p1.x)) * L1)) *
        (p1.x - p0.x),
     p1.y + (-w) * (p1.x - p0.x) / L1 +
      ((-w) * ((p1.x - p0.x) * (p2.x - p1.x) + (p1.y - p0.y) * (p2.y - p1.y) - L1 * L2) /
        (((p1.x - p0.x) * (p2.y - p1.y) - (p1.y - p0.y) * (p2.x - p1.x)) * L1)) *
        (p1.y - p0.y), 0⟩ with hQR
  have hstep : intersectionStep
      ((segPairs (leftSegmentsOf w (centerSegmentsOf (removeParallel2D [p0, p1, p2])))).zip
        (segPairs (rightSegmentsOf w (centerSegmentsOf (removeParallel2D [p0, p1, p2]))))) =
      .ok ([setZ QL], [setZ QR]) := by
    rw [hfilt, hlsegs, hrsegs]
    show intersectionStep [((_, _), (_, _))] = _
    rw [intersectionStep]
    simp only [mkLineSegment]
    rw [hleft, hright]
    rfl
  have hjoints : (assembleData [p0, p1, p2] w [setZ QL] [setZ QR]).joints =
      [jointStep (mkLineSegment p0 p1) (mkLineSegment p1 p2) (setZ QL) (setZ QR)
        (add p0 (multiply ⟨-(p1.y - p0.y) / L1, (p1.x - p0.x) / L1, 0⟩ w))
        (add p0 (multiply ⟨-(p1.y - p0.y) / L1, (p1.x - p0.x) / L1, 0⟩ (-w)))] := by
    simp only [assembleData, hfilt, hlsegs, hrsegs]
    rfl
  -- the distance comparison is the sign of the turn
  have hsubL : sub (setZ QL)
      (add p0 (multiply ⟨-(p1.y - p0.y) / L1, (p1.x - p0.x) / L1, 0⟩ w)) =
      ⟨(1 + w * ((p1.x - p0.x) * (p2.x - p1.x) + (p1.y - p0.y) * (p2.y - p1.y) - L1 * L2) /
          (((p1.x - p0.x) * (p2.y - p1.y) - (p1.y - p0.y) * (p2.x - p1.x)) * L1)) * (p1.x - p0.x),
        (1 + w * ((p1.x - p0.x) * (p2.x - p1.x) + (p1.y - p0.y) * (p2.y - p1.y) - L1 * L2) /
          (((p1.x - p0.x) * (p2.y - p1.y) - (p1.y - p0.y) * (p2.x - p1.x)) * L1)) * (p1.y - p0.y),
        0⟩ := by
    simp only [hQL, sub, setZ, add, multiply]
    rw [Vec3.mk.injEq]
    refine ⟨by ring, by ring, by simp [hz0]⟩
  have hsubR : sub (setZ QR)
      (add p0 (multiply ⟨-(p1.y - p0.y) / L1, (p1.x - p0.x) / L1, 0⟩ (-w))) =
      ⟨(1 - w * ((p1.x - p0.x) * (p2.x - p1.x) + (p1.y - p0.y) * (p2.y - p1.y) - L1 * L2) /
          (((p1.x - p0.x) * (p2.y - p1.y) - (p1.y - p0.y) * (p2.x - p1.x)) * L1)) * (p1.x - p0.x),
        (1 - w * ((p1.x - p0.x) * (p2.x - p1.x) + (p1.y - p0.y) * (p2.y - p1.y) - L1 * L2) /
          (((p1.x - p0.x) * (p2.y - p1.y) - (p1.y - p0.y) * (p2.x - p1.x)) * L1)) * (p1.y - p0.y),
        0⟩ := by
    simp only [hQR, sub, setZ, add, multiply]
    rw [Vec3.mk.injEq]
    refine ⟨by ring, by ring, by simp [hz0]⟩
  have hcomp : (length (sub (setZ QL)
        (add p0 (multiply ⟨-(p1.y - p0.y) / L1, (p1.x - p0.x) / L1, 0⟩ w))) <
      length (sub (setZ QR)
        (add p0 (multiply ⟨-(p1.y - p0.y) / L1, (p1.x - p0.x) / L1, 0⟩ (-w))))) ↔
      0 < cross2D (sub p1 p0) (sub p2 p1) := by
    rw [hsubL, hsubR, length, length]
    rw [sqrt_lt_sqrt_iff_of_sq _ _ (by positivity) (by positivity)]
    have hA : ((1 + w * ((p1.x - p0.x) * (p2.x - p1.x) + (p1.y - p0.y) * (p2.y - p1.y) - L1 * L2) /
          (((p1.x - p0.x) * (p2.y - p1.y) - (p1.y - p0.y) * (p2.x - p1.x)) * L1)) * (p1.x - p0.x)) ^ 2 +
        ((1 + w * ((p1.x - p0.x) * (p2.x - p1.x) + (p1.y - p0.y) * (p2.y - p1.y) - L1 * L2) /
          (((p1.x - p0.x) * (p2.y - p1.y) - (p1.y - p0.y) * (p2.x - p1.x)) * L1)) * (p1.y - p0.y)) ^ 2 +
        (0:ℝ) ^ 2 =
        (1 + w * ((p1.x - p0.x) * (p2.x - p1.x) + (p1.y - p0.y) * (p2.y - p1.y) - L1 * L2) /
          (((p1.x - p0.x) * (p2.y - p1.y) - (p1.y - p0.y) * (p2.x - p1.x)) * L1)) ^ 2 * L1 ^ 2 := by
      rw [hL1sq]
      ring
    have hB : ((1 - w * ((p1.x - p0.x) * (p2.x - p1.x) + (p1.y - p0.y) * (p2.y - p1.y) - L1 * L2) /
          (((p1.x - p0.x) * (p2.y - p1.y) - (p1.y - p0.y) * (p2.x - p1.x)) * L1)) * (p1.x - p0.x)) ^ 2 +
        ((1 - w * ((p1.x - p0.x) * (p2.x - p1.x) + (p1.y - p0.y) * (p2.y - p1.y) - L1 * L2) /
          (((p1.x - p0.x) * (p2.y - p1.y) - (p1.y - p0.y) * (p2.x - p1.x)) * L1)) * (p1.y - p0.y)) ^ 2 +
        (0:ℝ) ^ 2 =
        (1 - w * ((p1.x - p0.x) * (p2.x - p1.x) + (p1.y - p0.y) * (p2.y - p1.y) - L1 * L2) /
          (((p1.x - p0.x) * (p2.y - p1.y) - (p1.y - p0.y) * (p2.x - p1.x)) * L1)) ^ 2 * L1 ^ 2 := by
      rw [hL1sq]
      ring
    rw [hA, hB]
    have := decision_iff_core (p1.x - p0.x) (p1.y - p0.y) (p2.x - p1.x) (p2.y - p1.y)
      L1 L2 w hL1sq hL2sq hL1p hL2p hw hC'
    rw [show cross2D (sub p1 p0) (sub p2 p1) =
      (p1.x - p0.x) * (p2.y - p1.y) - (p1.y - p0.y) * (p2.x - p1.x) by
        simp [cross2D, sub]]
    exact this
  refine ⟨assembleData [p0, p1, p2] w [setZ QL] [setZ QR], ?_, ?_, ?_⟩
  · simp only [ribbonData]
    rw [if_neg (by norm_num), if_neg (not_le.mpr hw), hstep]
  · rw [hjoints]
    rfl
  · intro j hj
    rw [hjoints, List.mem_singleton] at hj
    subst hj
    rw [jointStep]
    by_cases hcmp : length (sub (setZ QL)
        (add p0 (multiply ⟨-(p1.y - p0.y) / L1, (p1.x - p0.x) / L1, 0⟩ w))) <
      length (sub (setZ QR)
        (add p0 (multiply ⟨-(p1.y - p0.y) / L1, (p1.x - p0.x) / L1, 0⟩ (-w))))
    · rw [if_pos hcmp]
      exact iff_of_true rfl (hcomp.mp hcmp)
    · rw [if_neg hcmp]
      exact iff_of_false (by simp) (fun h => hcmp (hcomp.mpr h))


/-- Claim C9: for every planar path with a single interior joint bending
by an angle strictly between 0 and 180 degrees (nonzero 2D cross
product of the two segment directions), the chosen inside corner is the
side geometrically on the inside of the bend: the left side is chosen
exactly when the bend turns left (positive cross product).  The
tie-break is deterministic and symmetric under mirroring: negating the
Y coordinates (same bend angle, opposite direction) selects the
opposite side. -/
theorem c9_bend_side (p0 p1 p2 : Vec3) (w : ℝ)
    (hz0 : p0.z = 0) (hz1 : p1.z = 0) (hz2 : p2.z = 0) (hw : 0 < w)
    (hC : cross2D (sub p1 p0) (sub p2 p1) ≠ 0) :
    (∃ d, ribbonData [p0, p1, p2] w = .ok d ∧ d.joints.length = 1 ∧
      ∀ j ∈ d.joints,
        (j.choseLeft = true ↔ 0 < cross2D (sub p1 p0) (sub p2 p1))) ∧
    (∃ d', ribbonData [⟨p0.x, -p0.y, p0.z⟩, ⟨p1.x, -p1.y, p1.z⟩, ⟨p2.x, -p2.y, p2.z⟩] w =
        .ok d' ∧ d'.joints.length = 1 ∧
      ∀ j ∈ d'.joints,
        (j.choseLeft = true ↔ cross2D (sub p1 p0) (sub p2 p1) < 0)) := by
  have hmc : cross2D (sub ⟨p1.x, -p1.y, p1.z⟩ ⟨p0.x, -p0.y, p0.z⟩)
      (sub ⟨p2.x, -p2.y, p2.z⟩ ⟨p1.x, -p1.y, p1.z⟩) =
      -cross2D (sub p1 p0) (sub p2 p1) := by
    simp only [cross2D, sub]
    ring
  refine ⟨c9_master p0 p1 p2 w hz0 hz1 hz2 hw hC, ?_⟩
  obtain ⟨d', h1, h2, h3⟩ := c9_master ⟨p0.x, -p0.y, p0.z⟩ ⟨p1.x, -p1.y, p1.z⟩
    ⟨p2.x, -p2.y, p2.z⟩ w hz0 hz1 hz2 hw (by rw [hmc]; exact neg_ne_zero.mpr hC)
  refine ⟨d', h1, h2, fun j hj => ?_⟩
  rw [h3 j hj, hmc]
  exact neg_pos

/-- Witness for claim C9, instantiated at the L-shaped path and its
mirror image. -/
theorem c9_bend_side_witness :
    (∃ d, ribbonData [⟨0,0,0⟩, ⟨10,0,0⟩, ⟨10,10,0⟩] 1 = .ok d ∧ d.joints.length = 1 ∧
      ∀ j ∈ d.joints, (j.choseLeft = true ↔
        0 < cross2D (sub ⟨10,0,0⟩ ⟨0,0,0⟩) (sub ⟨10,10,0⟩ ⟨10,0,0⟩))) ∧
    (∃ d', ribbonData [⟨0,-0,0⟩, ⟨10,-0,0⟩, ⟨10,-10,0⟩] 1 = .ok d' ∧ d'.joints.length = 1 ∧
      ∀ j ∈ d'.joints, (j.choseLeft = true ↔
        cross2D (sub ⟨10,0,0⟩ ⟨0,0,0⟩) (sub ⟨10,10,0⟩ ⟨10,0,0⟩) < 0)) :=
  c9_bend_side ⟨0,0,0⟩ ⟨10,0,0⟩ ⟨10,10,0⟩ 1 rfl rfl rfl (by norm_num)
    (by norm_num [cross2D, sub])


/-- Witness for claim C10, instantiated at the straight path. -/
theorem c10_planar_witness :
    (∀ t ∈ (meshOf false data2).triangles, t.1.z = 0 ∧ t.2.1.z = 0 ∧ t.2.2.z = 0) ∧
    (∀ q ∈ (meshOf false data2).outline, q.z = 0) := by
  apply c10_planar [⟨0,0,0⟩, ⟨10,0,0⟩] 1 false (meshOf false data2)
  · intro q hq
    simp only [List.mem_cons, List.not_mem_nil, or_false] at hq
    rcases hq with rfl | rfl <;> rfl
  · rw [ribbon, ribbonDataP2]
    rfl

/-- Witness for the amended claim C1, instantiated at the L-shaped path. -/
theorem c1_amended_witness :
    ∃ j r r', data3.joints.get? 0 = some j ∧ data3.rectangles.get? 0 = some r ∧
      data3.rectangles.get? 1 = some r' ∧
      ((j.ls = r.leftStart ∧ j.rs = r.rightStart) ∧
       (length (sub j.li j.ls) < length (sub j.ri j.rs) →
         j.inside = j.li ∧ r.leftEnd = j.li ∧ r'.leftStart = j.li) ∧
       (¬ length (sub j.li j.ls) < length (sub j.ri j.rs) →
         j.inside = j.ri ∧ r.rightEnd = j.ri ∧ r'.rightStart = j.ri)) := by
  refine ⟨_, _, _, rfl, rfl, rfl, ?_⟩
  exact c1_amended [⟨0,0,0⟩, ⟨10,0,0⟩, ⟨10,10,0⟩] 1 data3 0 _ _ _
    ribbonDataPath3 rfl rfl rfl

end RibbonSpec
